import Mathlib

/-!
Verification development for the `opty` inference gateway.

The TypeScript source is shallowly embedded in Lean:

* `Js.Json` models the JavaScript JSON value universe together with
  executable models of `JSON.parse` and `JSON.stringify`;
* string helpers model the handful of JS string operations the gateway
  uses (`trim`, `split`, `startsWith`, `includes`, `toLowerCase`, the
  anchored `replace(/^data:\s*%/, "")` strips);
* each gateway component (the OpenAI "responses" streaming translator,
  the Google translator, the streaming relay, the failover controller,
  cost accounting, the auth pre-handler, the request handlers) is
  translated into a pure Lean function over these models.

Theorems at the end settle the frozen specification claims.
-/

namespace Js

/-- Substring test on character lists: does `s` start with `pat`? -/
def startsSeq : List Char → List Char → Bool
  | [], _ => true
  | _ :: _, [] => false
  | p :: ps, c :: cs => p == c && startsSeq ps cs

/-- Substring containment on character lists (JS `String.prototype.includes`). -/
def hasSeq (pat : List Char) : List Char → Bool
  | [] => startsSeq pat []
  | c :: cs => startsSeq pat (c :: cs) || hasSeq pat cs

/-- JS `s.includes(pat)`. -/
def strIncludes (s pat : String) : Bool :=
  hasSeq pat.toList s.toList

/-- JS `s.startsWith(pat)`. -/
def strStartsWith (s pat : String) : Bool :=
  startsSeq pat.toList s.toList

/-- ASCII lower-casing of a string, modelling JS `toLowerCase` on the
ASCII inputs the gateway manipulates. -/
def strToLower (s : String) : String :=
  String.mk (s.toList.map Char.toLower)

/-- JS whitespace class `\s` restricted to the ASCII characters that occur
in SSE streams (space, tab, CR, LF, form feed, vertical tab). -/
def isJsWs (c : Char) : Bool :=
  c == ' ' || c == '\t' || c == '\r' || c == '\n' || c == '\x0b' || c == '\x0c'

/-- JS `s.trim()` (restricted to ASCII whitespace). -/
def strTrim (s : String) : String :=
  String.mk ((s.toList.dropWhile (isJsWs ·)).reverse.dropWhile (isJsWs ·) |>.reverse)

/-- JS `s.replace(/^tag\s*%/, "")`: if `s` starts with `tag`, drop the tag and
any whitespace run that follows it; otherwise return `s` unchanged. -/
def stripTagWs (tag : String) (s : String) : String :=
  if strStartsWith s tag then
    String.mk ((s.toList.drop tag.toList.length).dropWhile (isJsWs ·))
  else s

/-- JS `s.split(sep)` for a non-empty separator, on character lists
(fuel-indexed so the definition evaluates by kernel reduction; the
wrapper supplies more fuel than the input length, which is always
enough since every recursive call consumes at least one character). -/
def splitSeq (sep : List Char) : Nat → List Char → List (List Char)
  | _, [] => [[]]
  | 0, cs => [cs]
  | fuel + 1, c :: cs =>
    if startsSeq sep (c :: cs) ∧ sep ≠ [] then
      [] :: splitSeq sep fuel (List.drop (sep.length - 1) cs)
    else
      match splitSeq sep fuel cs with
      | [] => [[c]]
      | r :: rs => (c :: r) :: rs

/-- JS `s.split(sep)` (non-empty separator). -/
def strSplit (s sep : String) : List String :=
  (splitSeq sep.toList (s.toList.length + 1) s.toList).map String.mk

/-- The JSON value universe as manipulated by the gateway.  Numbers keep
their literal spelling: the gateway never does arithmetic on parsed JSON
numbers, it only moves them around and re-serialises them. -/
inductive Json where
  | null : Json
  | bool (b : Bool) : Json
  | num (lit : String) : Json
  | str (s : String) : Json
  | arr (elems : List Json) : Json
  | obj (fields : List (String × Json)) : Json

/-- Set a field on a JS object: overwrite in place when the key exists
(keeping its position, as JS property assignment does), else append. -/
def setField (fields : List (String × Json)) (k : String) (v : Json) :
    List (String × Json) :=
  match fields with
  | [] => [(k, v)]
  | (k', v') :: rest =>
    if k' == k then (k', v) :: rest else (k', v') :: setField rest k v

/-- Field lookup, modelling JS property access `o.k` on an object
(`none` models `undefined`, including access on a non-object). -/
def Json.getField? : Json → String → Option Json
  | .obj fields, k => (fields.find? (fun p => p.1 == k)).map Prod.snd
  | _, _ => none

/-- Optional-chaining access `o?.k` where `o` itself may be absent. -/
def getF (j : Option Json) (k : String) : Option Json :=
  match j with
  | some v => v.getField? k
  | none => none

/-- Nullish coalescing: `a ?? b` treats both JS `undefined` (`none`) and
JSON `null` as missing. -/
def nn (j : Option Json) : Option Json :=
  match j with
  | some .null => none
  | o => o

/-- Does a numeric literal denote zero (`0`, `-0`, `0.0`, `0e5`, …)? -/
def numLitIsZero (lit : String) : Bool :=
  let cs := lit.toList
  let cs := if cs.head? = some '-' then cs.tail else cs
  let mantissa := cs.takeWhile (fun c => c ≠ 'e' ∧ c ≠ 'E')
  mantissa.all (fun c => c == '0' || c == '.')

/-- JS truthiness of a JSON value. -/
def truthy : Json → Bool
  | .null => false
  | .bool b => b
  | .num lit => !numLitIsZero lit
  | .str s => s ≠ ""
  | .arr _ => true
  | .obj _ => true

/-- JS truthiness of a possibly-absent value (`undefined` is falsy). -/
def truthyOpt : Option Json → Bool
  | some v => truthy v
  | none => false

end Js

namespace Js

/-- JSON whitespace (the four characters `JSON.parse` skips). -/
def skipWs : List Char → List Char
  | c :: cs => if c = ' ' ∨ c = '\t' ∨ c = '\n' ∨ c = '\r' then skipWs cs else c :: cs
  | [] => []

/-- Hexadecimal digit value. -/
def hexVal (c : Char) : Option Nat :=
  if '0' ≤ c ∧ c ≤ '9' then some (c.toNat - '0'.toNat)
  else if 'a' ≤ c ∧ c ≤ 'f' then some (c.toNat - 'a'.toNat + 10)
  else if 'A' ≤ c ∧ c ≤ 'F' then some (c.toNat - 'A'.toNat + 10)
  else none

/-- Parse the body of a JSON string literal (after the opening quote),
returning the decoded string and the remaining input (fuel-indexed;
every recursive call consumes at least one character). -/
def parseStrBody : Nat → List Char → List Char → Option (String × List Char)
  | _, [], _ => none
  | 0, _, _ => none
  | fuel + 1, cs, acc =>
    match cs with
    | [] => none
    | '"' :: rest => some (String.mk acc.reverse, rest)
    | '\\' :: esc =>
      (match esc with
       | [] => none
       | e :: rest =>
         if e = '"' then parseStrBody fuel rest ('"' :: acc)
         else if e = '\\' then parseStrBody fuel rest ('\\' :: acc)
         else if e = '/' then parseStrBody fuel rest ('/' :: acc)
         else if e = 'b' then parseStrBody fuel rest ('\x08' :: acc)
         else if e = 'f' then parseStrBody fuel rest ('\x0c' :: acc)
         else if e = 'n' then parseStrBody fuel rest ('\n' :: acc)
         else if e = 'r' then parseStrBody fuel rest ('\r' :: acc)
         else if e = 't' then parseStrBody fuel rest ('\t' :: acc)
         else if e = 'u' then
           match rest with
           | a :: b :: c :: d :: rest' =>
             (match hexVal a, hexVal b, hexVal c, hexVal d with
              | some x, some y, some z, some w =>
                let n := ((x * 16 + y) * 16 + z) * 16 + w
                if hval : n.isValidChar then
                  parseStrBody fuel rest' (Char.ofNatAux n hval :: acc)
                else none
              | _, _, _, _ => none)
           | _ => none
         else none)
    | c :: rest =>
      if c.toNat < 32 then none else parseStrBody fuel rest (c :: acc)

/-- Take a maximal run of decimal digits. -/
def takeDigits (cs : List Char) : List Char × List Char :=
  (cs.takeWhile Char.isDigit, cs.dropWhile Char.isDigit)

/-- Parse a JSON numeric literal, returning it verbatim. -/
def parseNumLit (cs : List Char) : Option (String × List Char) :=
  let (sign, cs1) := if cs.head? = some '-' then (['-'], cs.tail) else ([], cs)
  let (intPart, cs2) := takeDigits cs1
  if intPart = [] then none
  else if intPart.length > 1 ∧ intPart.head? = some '0' then none
  else
    let (fracPart, cs3) :=
      match cs2 with
      | '.' :: rest =>
        let (ds, rest') := takeDigits rest
        if ds = [] then ([], cs2) else ('.' :: ds, rest')
      | _ => ([], cs2)
    if fracPart = [] ∧ cs2.head? = some '.' then none
    else
      let (expPart, cs4) :=
        match cs3 with
        | e :: rest =>
          if e = 'e' ∨ e = 'E' then
            let (sgn, rest1) :=
              match rest with
              | s :: r => if s = '+' ∨ s = '-' then ([s], r) else ([], rest)
              | [] => ([], rest)
            let (ds, rest2) := takeDigits rest1
            if ds = [] then (([] : List Char), cs3) else (e :: (sgn ++ ds), rest2)
          else ([], cs3)
        | [] => ([], cs3)
      if expPart = [] ∧ (cs3.head? = some 'e' ∨ cs3.head? = some 'E') then none
      else some (String.mk (sign ++ intPart ++ fracPart ++ expPart), cs4)

mutual

/-- Fuel-indexed JSON value parser (model of `JSON.parse`). -/
def parseVal : Nat → List Char → Option (Json × List Char)
  | 0, _ => none
  | fuel + 1, cs =>
    match skipWs cs with
    | 'n' :: 'u' :: 'l' :: 'l' :: rest => some (.null, rest)
    | 't' :: 'r' :: 'u' :: 'e' :: rest => some (.bool true, rest)
    | 'f' :: 'a' :: 'l' :: 's' :: 'e' :: rest => some (.bool false, rest)
    | '"' :: rest =>
      match parseStrBody (rest.length + 1) rest [] with
      | some (s, rest') => some (.str s, rest')
      | none => none
    | '[' :: rest =>
      (match skipWs rest with
       | ']' :: rest' => some (.arr [], rest')
       | _ =>
         match parseItems fuel rest [] with
         | some (items, rest') => some (.arr items, rest')
         | none => none)
    | '\x7b' :: rest =>
      (match skipWs rest with
       | '\x7d' :: rest' => some (.obj [], rest')
       | _ =>
         match parseMembers fuel rest [] with
         | some (fields, rest') => some (.obj fields, rest')
         | none => none)
    | c :: rest =>
      if c = '-' ∨ c.isDigit then
        match parseNumLit (c :: rest) with
        | some (lit, rest') => some (.num lit, rest')
        | none => none
      else none
    | [] => none

/-- Parse one-or-more comma-separated array items up to `]`. -/
def parseItems : Nat → List Char → List Json → Option (List Json × List Char)
  | 0, _, _ => none
  | fuel + 1, cs, acc =>
    match parseVal fuel cs with
    | some (v, rest) =>
      (match skipWs rest with
       | ',' :: rest' => parseItems fuel rest' (v :: acc)
       | ']' :: rest' => some ((v :: acc).reverse, rest')
       | _ => none)
    | none => none

/-- Parse one-or-more comma-separated object members up to a closing brace.
Duplicate keys overwrite in place, as in JS. -/
def parseMembers : Nat → List Char → List (String × Json) →
    Option (List (String × Json) × List Char)
  | 0, _, _ => none
  | fuel + 1, cs, acc =>
    match skipWs cs with
    | '"' :: rest =>
      (match parseStrBody (rest.length + 1) rest [] with
       | some (k, rest1) =>
         (match skipWs rest1 with
          | ':' :: rest2 =>
            (match parseVal fuel rest2 with
             | some (v, rest3) =>
               (match skipWs rest3 with
                | ',' :: rest4 => parseMembers fuel rest4 (setField acc k v)
                | '\x7d' :: rest4 => some (setField acc k v, rest4)
                | _ => none)
             | none => none)
          | _ => none)
       | none => none)
    | _ => none

end

/-- Model of `JSON.parse`: parse a complete JSON document, requiring the
whole input to be consumed. -/
def Json.parse (s : String) : Option Json :=
  match parseVal (2 * s.toList.length + 8) s.toList with
  | some (v, rest) => if skipWs rest = [] then some v else none
  | none => none

/-- Escape one character for a JSON string literal, as `JSON.stringify` does. -/
def escChar (c : Char) : List Char :=
  if c = '"' then ['\\', '"']
  else if c = '\\' then ['\\', '\\']
  else if c = '\x08' then ['\\', 'b']
  else if c = '\x0c' then ['\\', 'f']
  else if c = '\n' then ['\\', 'n']
  else if c = '\r' then ['\\', 'r']
  else if c = '\t' then ['\\', 't']
  else if c.toNat < 32 then
    let hx := fun (n : Nat) =>
      if n < 10 then Char.ofNat ('0'.toNat + n) else Char.ofNat ('a'.toNat + n - 10)
    ['\\', 'u', '0', '0', hx (c.toNat / 16), hx (c.toNat % 16)]
  else [c]

/-- Serialise a string as a JSON string literal. -/
def escStr (s : String) : String :=
  String.mk ('"' :: s.toList.flatMap escChar ++ ['"'])

/-- Fuel-indexed serialiser body (the fuel strictly exceeds the value's
nesting depth whenever the wrapper below supplies `sizeOf`). -/
def stringifyF : Nat → Json → String
  | _, .null => "null"
  | _, .bool true => "true"
  | _, .bool false => "false"
  | _, .num lit => lit
  | _, .str s => escStr s
  | 0, _ => ""
  | fuel + 1, .arr elems =>
    "[" ++ String.intercalate "," (elems.map (stringifyF fuel)) ++ "]"
  | fuel + 1, .obj fields =>
    "\x7b" ++ String.intercalate ","
      (fields.map (fun x => escStr x.1 ++ ":" ++ stringifyF fuel x.2)) ++ "\x7d"

/-- Ample fuel for the recursive JSON walks: far beyond the nesting
depth of any value this gateway builds or parses (parsed values have
depth bounded by their input length, and constructed ones are shallow). -/
def jsonFuel : Nat := 1000

/-- Model of `JSON.stringify` (compact form, insertion key order). -/
def Json.stringify (j : Json) : String :=
  stringifyF jsonFuel j

end Js

namespace Js

/-- Fuel-indexed body of the JS `String(v)` coercion. -/
def jsToStringF : Nat → Json → String
  | _, .null => "null"
  | _, .bool true => "true"
  | _, .bool false => "false"
  | _, .num lit => lit
  | _, .str s => s
  | _, .obj _ => "[object Object]"
  | 0, .arr _ => ""
  | fuel + 1, .arr xs =>
    String.intercalate ","
      (xs.map (fun x =>
        match x with
        | .null => ""
        | v => jsToStringF fuel v))

/-- JS `String(v)` coercion for JSON values.  (A re-serialised numeric
literal is kept verbatim rather than re-formatted.) -/
def jsToString (j : Json) : String :=
  jsToStringF jsonFuel j

/-- JS `xs?.[0]` element access. -/
def index0 : Option Json → Option Json
  | some (.arr (x :: _)) => some x
  | _ => none

end Js

namespace Optyx

open Js

/-! Embedding of `packages/shared` (the model catalog, `part_000`). -/

inductive Provider where
  | openai
  | google
deriving DecidableEq, Repr

inductive MType where
  | chat
  | embedding
deriving DecidableEq, Repr

inductive Tier where
  | FAST
  | SMART
deriving DecidableEq, Repr

structure ModelEntry where
  id : String
  provider : Provider
  type : MType
  tierDefaultAllowed : Option (List Tier)
deriving DecidableEq, Repr

def modelCatalog : List ModelEntry :=
  [ ⟨"gpt-5-nano-2025-08-07", .openai, .chat, some [.FAST]⟩,
    ⟨"gpt-5-mini-2025-08-07", .openai, .chat, some [.SMART]⟩,
    ⟨"gpt-4o-2024-08-06", .openai, .chat, none⟩,
    ⟨"gemini-2.0-flash-lite", .google, .chat, some [.FAST]⟩,
    ⟨"gemini-embedding-001", .google, .embedding, none⟩ ]

def defaultFastModelId : String := "gpt-5-nano-2025-08-07"

def defaultSmartModelId : String := "gpt-5-mini-2025-08-07"

/-- `modelAliases` as an association list in object-literal order. -/
def modelAliasesList : List (String × String) :=
  [("gpt-5-nano", defaultFastModelId), ("gpt-5-mini", defaultSmartModelId)]

/-- JS `modelAliases[s]`. -/
def modelAliasLookup (s : String) : Option String :=
  (modelAliasesList.find? (fun p => p.1 == s)).map Prod.snd

/-- `modelCatalogById.get(id)`. -/
def catalogById (id : String) : Option ModelEntry :=
  modelCatalog.find? (fun m => m.id == id)

def chatModelIds : List String :=
  (modelCatalog.filter (fun m => m.type == .chat)).map ModelEntry.id

def embeddingModelIds : List String :=
  (modelCatalog.filter (fun m => m.type == .embedding)).map ModelEntry.id

/-- `normalizeModelId` from the gateway entry point: returns
`(canonical, aliasOf)`. -/
def normalizeModelId (input : Option String) : Option String × Option String :=
  match input with
  | none => (none, none)
  | some s =>
    if s = "" then (none, none)
    else
      match modelAliasLookup s with
      | some target => (some target, some target)
      | none => (some s, none)

/-! Embedding of the Google provider translator
(`src/apps/gateway/src/providers/google.ts`). -/

/-- Text extraction from one parsed streaming fragment:
`parsed?.candidates?.[0]?.content?.parts?.map((p) => p?.text || "").join("") ?? ""`.
`.map` on a non-array `parts` raises a `TypeError`, which the surrounding
`catch` turns into skipping the fragment — modelled by `Except.error`. -/
def googleFragmentText (parsed : Json) : Except Unit String :=
  let parts := getF (getF (index0 (parsed.getField? "candidates")) "content") "parts"
  match parts with
  | none => .ok ""
  | some .null => .ok ""
  | some (.arr xs) =>
    .ok (String.join (xs.map (fun p =>
      match getF (some p) "text" with
      | some v => if truthy v then jsToString v else ""
      | none => "")))
  | some _ => .error ()

/-- The canonical chunk payload the Google translator builds for a
fragment with text. -/
def googleChunkPayload (now : Nat) (model text : String) : Json :=
  .obj
    [ ("id", .str ("google-" ++ toString now)),
      ("object", .str "chat.completion.chunk"),
      ("model", .str model),
      ("choices", .arr
        [ .obj
            [ ("index", .num "0"),
              ("delta", .obj [("content", .str text)]),
              ("finish_reason", .null) ] ]) ]

/-- The Google streaming `chunkToSse` (stateless: it keeps no buffer
between invocations).  Returns the canonical SSE frames for one raw
upstream chunk. -/
def googleChunkToSse (now : Nat) (model : String) (chunk : String) : List String :=
  let lines := ((strSplit chunk "\n").map strTrim).filter (fun l => l ≠ "")
  lines.foldl (fun sse line =>
    match Json.parse line with
    | none => sse
    | some parsed =>
      match googleFragmentText parsed with
      | .error _ => sse
      | .ok text =>
        if text ≠ "" then
          sse ++ ["data: " ++ (googleChunkPayload now model text).stringify ++ "\n\n"]
        else sse) []

end Optyx

namespace Optyx

open Js

/-! Embedding of the OpenAI provider translator (`providers/openai.ts`,
`part_016`). -/

/-- `UsageTotals`: token counts riding along a translated chunk.  Values
are kept as the JSON values the upstream reported (`none` models both JS
`null` and `undefined`, which every consumer treats alike via `!= null`
and `?? null`). -/
structure UsageTotals where
  prompt_tokens : Option Json
  completion_tokens : Option Json

/-- Strict string equality test `v === "s"` against a JSON value. -/
def strictEqStr (v : Option Json) (s : String) : Bool :=
  match v with
  | some (.str t) => t == s
  | _ => false

/-- Helper for `parseOpenAIUsageFromChunk`: scan SSE lines for the first
embedded `usage` object. -/
def usageFromLines : List String → Option UsageTotals
  | [] => none
  | l :: rest =>
    let trimmed := strTrim l
    if strStartsWith trimmed "data:" then
      let data := stripTagWs "data:" trimmed
      if data = "[DONE]" then usageFromLines rest
      else
        match Json.parse data with
        | some parsed =>
          if truthyOpt (parsed.getField? "usage") then
            some ⟨getF (parsed.getField? "usage") "prompt_tokens",
                  getF (parsed.getField? "usage") "completion_tokens"⟩
          else usageFromLines rest
        | none => usageFromLines rest
    else usageFromLines rest

/-- `parseOpenAIUsageFromChunk` from `providers/openai.ts`. -/
def parseOpenAIUsageFromChunk (chunk : String) : Option UsageTotals :=
  usageFromLines (strSplit chunk "\n")

/-- The passthrough streaming translator for legacy OpenAI chat models:
`chunkToSse: (chunk) => ({ sse: [chunk], usage: parseOpenAIUsageFromChunk(chunk) })`. -/
def openaiPassthroughChunkToSse (chunk : String) : List String × Option UsageTotals :=
  ([chunk], parseOpenAIUsageFromChunk chunk)

/-- Fuel-indexed body of `collectTextFromEvent`'s recursive walk. -/
def collectTextF : Nat → Json → List String
  | 0, _ => []
  | fuel + 1, j =>
    match j with
    | .obj fields =>
      let walkArr : Option Json → List String := fun v =>
        match v with
        | some (.arr xs) => xs.flatMap (collectTextF fuel)
        | _ => []
      let ot := (Json.obj fields).getField? "output_text"
      let t1 := match ot with
        | some (.str s) => if strTrim s ≠ "" then [s] else []
        | _ => []
      let t2 := match (Json.obj fields).getField? "output_text_delta" with
        | some (.str s) => if strTrim s ≠ "" then [s] else []
        | _ => []
      let t3 :=
        if strictEqStr ((Json.obj fields).getField? "type") "output_text" then
          match (Json.obj fields).getField? "text" with
          | some (.str s) => if strTrim s ≠ "" then [s] else []
          | _ => []
        else []
      let c1 := walkArr ((Json.obj fields).getField? "content")
      let c2 := walkArr ((Json.obj fields).getField? "contents")
      let c3 := walkArr ((Json.obj fields).getField? "output")
      let c4 := walkArr ((Json.obj fields).getField? "outputs")
      let c5 := walkArr ((Json.obj fields).getField? "messages")
      let d := match (Json.obj fields).getField? "delta" with
        | some v => if truthy v then collectTextF fuel v else []
        | none => []
      let o := match ot with
        | some v => if truthy v then collectTextF fuel v else []
        | none => []
      t1 ++ t2 ++ t3 ++ c1 ++ c2 ++ c3 ++ c4 ++ c5 ++ d ++ o
    | _ => []

/-- `collectTextFromEvent` from `providers/openai.ts`: the recursive walk
that harvests every text fragment of a "responses"-protocol event.  The
walk ignores non-object nodes (in JS, arrays pass the `typeof` test but
carry none of the probed properties, so they contribute nothing when
visited directly). -/
def collectText (j : Json) : List String :=
  collectTextF jsonFuel j

/-- `parseResponsesUsage` from `providers/openai.ts`. -/
def parseResponsesUsage (obj : Option Json) : Option UsageTotals :=
  let u :=
    match nn (getF obj "usage") with
    | some v => some v
    | none =>
      match nn (getF (index0 (getF obj "output")) "usage") with
      | some v => some v
      | none => getF (index0 (getF obj "outputs")) "usage"
  if ¬ truthyOpt u then none
  else
    let prompt :=
      match nn (getF u "input_tokens") with
      | some v => some v
      | none =>
        match nn (getF u "prompt_tokens") with
        | some v => some v
        | none => nn (getF u "total_tokens")
    let completion :=
      match nn (getF u "output_tokens") with
      | some v => some v
      | none => nn (getF u "completion_tokens")
    some ⟨prompt, completion⟩

/-- `finishReasonFromResponse` from `providers/openai.ts`. -/
def finishReasonFromResponse (event : Json) : Option String :=
  let status :=
    match nn (getF (event.getField? "response") "status") with
    | some v => some v
    | none => event.getField? "status"
  let reason :=
    match nn (getF (getF (event.getField? "response") "status_details") "reason") with
    | some v => some v
    | none =>
      match nn (getF (event.getField? "status_details") "reason") with
      | some v => some v
      | none => getF (event.getField? "response") "status_reason"
  if strictEqStr reason "max_output_tokens" then some "length"
  else if strictEqStr reason "stop" then some "stop"
  else if strictEqStr status "completed" then some "stop"
  else if strictEqStr status "incomplete" then some "length"
  else none

end Optyx

namespace Optyx

open Js

/-- `chatChunksFromResponsesEvent` from `providers/openai.ts`: convert one
"responses" event object into canonical SSE chunk frames plus usage. -/
def chatChunksFromResponsesEvent (now : Nat) (event : Json) (model : String) :
    List String × Option UsageTotals :=
  let texts := collectText event
  let usage := parseResponsesUsage (some event)
  let id :=
    match nn (event.getField? "id") with
    | some v => v
    | none =>
      match nn (getF (event.getField? "response") "id") with
      | some v => v
      | none => .str ("resp-" ++ toString now)
  let created :=
    match nn (event.getField? "created") with
    | some v => v
    | none => .num (toString (now / 1000))
  let textFrames :=
    ((texts.zip (List.range texts.length)).map (fun (t : String × Nat) =>
      let delta : Json :=
        if t.2 = 0 then .obj [("role", .str "assistant"), ("content", .str t.1)]
        else .obj [("content", .str t.1)]
      let payload : Json := .obj
        [ ("id", id),
          ("object", .str "chat.completion.chunk"),
          ("created", created),
          ("model", .str model),
          ("choices", .arr
            [.obj [("index", .num "0"), ("delta", delta), ("finish_reason", .null)]]) ]
      "data: " ++ payload.stringify ++ "\n\n"))
  let sse :=
    match finishReasonFromResponse event with
    | some fr =>
      textFrames ++
        [ "data: " ++ (Json.obj
            [ ("id", id),
              ("object", .str "chat.completion.chunk"),
              ("created", created),
              ("model", .str model),
              ("choices", .arr
                [.obj [("index", .num "0"), ("delta", .obj []),
                       ("finish_reason", .str fr)]]) ]).stringify ++ "\n\n",
          "data: [DONE]\n\n" ]
    | none => textFrames
  (sse, usage)

/-- Mutable per-call state of the GPT-5 "responses" streaming translator
(the closure variables `buffer`, `roleSent`, `doneSent`, `finishReason`,
`sawText`). -/
structure Gpt5State where
  buffer : String
  roleSent : Bool
  doneSent : Bool
  finishReason : Option String
  sawText : Bool

/-- The fresh state captured when the stream handle is created. -/
def gpt5Init : Gpt5State :=
  ⟨"", false, false, none, false⟩

/-- Inner-loop state of one `chunkToSse` invocation: the mutable
`roleSent`, `sawText`, `finishReason` variables. -/
structure InnerState where
  roleSent : Bool
  sawText : Bool
  finishReason : Option String

/-- The role-establishing chunk emitted before the first text delta. -/
def gpt5RoleChunk (now : Nat) (model : String) (parsed : Json) : Json :=
  let id :=
    match nn (parsed.getField? "id") with
    | some v => v
    | none =>
      match nn (getF (parsed.getField? "response") "id") with
      | some v => v
      | none => .str ("resp-" ++ toString now)
  let created :=
    match nn (parsed.getField? "created") with
    | some v => v
    | none => .num (toString (now / 1000))
  .obj
    [ ("id", id),
      ("object", .str "chat.completion.chunk"),
      ("created", created),
      ("model", .str model),
      ("choices", .arr
        [.obj [("index", .num "0"), ("delta", .obj [("role", .str "assistant")]),
               ("finish_reason", .null)]]) ]

/-- The synthetic event the delta branch builds for
`chatChunksFromResponsesEvent` (object-literal fields whose value is
`undefined` are omitted, which every downstream accessor treats the same
as an absent property). -/
def gpt5EventForDelta (parsed : Json) (text : String) : Json :=
  let idVal : Option Json :=
    match nn (parsed.getField? "id") with
    | some v => some v
    | none => getF (parsed.getField? "response") "id"
  let createdVal : Option Json := parsed.getField? "created"
  .obj
    ((match idVal with | some v => [("id", v)] | none => []) ++
     (match createdVal with | some v => [("created", v)] | none => []) ++
     [("outputs", Json.arr
        [.obj [("type", .str "message"),
               ("content", .arr [.obj [("type", .str "output_text"),
                                       ("text", .str text)]])]])])

/-- Classification of one blank-line-terminated raw SSE event by the
GPT-5 streaming translator's per-chunk loop: the guard chain of the
source, separated from the state update it selects. -/
inductive EventKind where
  | skipEv
  | deltaEv (parsed : Json)
  | incompleteEv (parsed : Json)
  | completedEv

/-- The guard chain of the per-event loop body: line splitting,
`event:` / `data:` scanning, `[DONE]` passthrough, JSON parsing, the
`parsed?.type || eventType` selection and the three recognised kinds. -/
def classifyGpt5Event (rawEvent : String) : EventKind :=
  let lines := ((strSplit rawEvent "\n").map strTrim).filter (fun l => l ≠ "")
  if lines = [] then .skipEv
  else
    let scan := lines.foldl
      (fun (p : Option String × List String) line =>
        if strStartsWith line "event:" then (some (stripTagWs "event:" line), p.2)
        else if strStartsWith line "data:" then (p.1, p.2 ++ [stripTagWs "data:" line])
        else p)
      (none, [])
    let eventType := scan.1
    let dataLines := scan.2
    if dataLines = [] then .skipEv
    else
      let payloadStr := String.join dataLines
      if payloadStr = "[DONE]" then .skipEv
      else
        match Json.parse payloadStr with
        | none => .skipEv
        | some parsed =>
          let pType : Option Json :=
            if truthyOpt (parsed.getField? "type") then parsed.getField? "type"
            else eventType.map Json.str
          if strStartsWith payloadStr "event:" then .skipEv
          else if strictEqStr pType "response.output_text.delta" &&
                  (match parsed.getField? "delta" with
                   | some .null => false
                   | some _ => true
                   | none => false) then .deltaEv parsed
          else if strictEqStr pType "response.incomplete" then .incompleteEv parsed
          else if strictEqStr pType "response.completed" then .completedEv
          else .skipEv

/-- Process one blank-line-terminated raw SSE event inside the GPT-5
streaming translator's per-chunk loop: classify it, then perform the
state update and frame pushes of the selected branch. -/
def gpt5ProcessEvent (now : Nat) (model : String)
    (acc : InnerState × List String × Option UsageTotals) (rawEvent : String) :
    InnerState × List String × Option UsageTotals :=
  let st := acc.1
  let sse := acc.2.1
  let usage := acc.2.2
  match classifyGpt5Event rawEvent with
  | .skipEv => acc
  | .deltaEv parsed =>
    let roleFrames :=
      if ¬ st.roleSent then
        ["data: " ++ (gpt5RoleChunk now model parsed).stringify ++ "\n\n"]
      else []
    let text := jsToString ((parsed.getField? "delta").getD .null)
    let converted :=
      chatChunksFromResponsesEvent now (gpt5EventForDelta parsed text) model
    let usage' := match converted.2 with
      | some u => some u
      | none => usage
    (⟨true, true, st.finishReason⟩, sse ++ roleFrames ++ converted.1, usage')
  | .incompleteEv parsed =>
    let fr :=
      if strictEqStr
          (getF (getF (parsed.getField? "response") "incomplete_details") "reason")
          "max_output_tokens"
      then "length" else "stop"
    (⟨st.roleSent, st.sawText, some fr⟩, sse, usage)
  | .completedEv =>
    let fr := match st.finishReason with
      | none => some "stop"
      | some f => some f
    (⟨st.roleSent, st.sawText, fr⟩, sse, usage)

end Optyx

namespace Optyx

open Js

/-- The canonical `OUTPUT_TRUNCATED` error payload the streaming
translator emits when a finish condition arrives before any text. -/
def outputTruncatedPayload : Json :=
  .obj
    [ ("object", .str "error"),
      ("message", .str "Upstream returned no text output. Increase max_tokens or lower reasoning effort."),
      ("code", .str "OUTPUT_TRUNCATED") ]

/-- The `OUTPUT_TRUNCATED` error frame as written to the stream. -/
def outputTruncatedFrame : String :=
  "data: " ++ outputTruncatedPayload.stringify ++ "\n\n"

/-- The terminal frame. -/
def doneFrame : String :=
  "data: [DONE]\n\n"

/-- The id the finish block recovers from the last event of the current
invocation (falling back to a synthetic `resp-<now>` id). -/
def gpt5FinishId (now : Nat) (events : List String) : Json :=
  match events.getLast? with
  | none => .str ("resp-" ++ toString now)
  | some last =>
    let lines := (strSplit last "\n").map strTrim
    match lines.find? (fun l => strStartsWith l "data:") with
    | none => .str ("resp-" ++ toString now)
    | some dataLine =>
      match Json.parse (stripTagWs "data:" dataLine) with
      | none => .str ("resp-" ++ toString now)
      | some parsed =>
        match nn (parsed.getField? "id") with
        | some v => v
        | none =>
          match nn (getF (parsed.getField? "response") "id") with
          | some v => v
          | none => .str ("resp-" ++ toString now)

/-- The complete events of one invocation: everything before the last
(possibly incomplete) blank-line-separated part of buffer ++ chunk. -/
def gpt5Events (st : Gpt5State) (chunk : String) : List String :=
  (strSplit (st.buffer ++ chunk) "\n\n").dropLast

/-- The carried-over buffer after one invocation: the trailing
incomplete fragment. -/
def gpt5Buffer (st : Gpt5State) (chunk : String) : String :=
  ((strSplit (st.buffer ++ chunk) "\n\n").getLast?).getD ""

/-- The event loop of one invocation, starting from the closure's
mutable state. -/
def gpt5Folded (now : Nat) (model : String) (st : Gpt5State) (chunk : String) :
    InnerState × List String × Option UsageTotals :=
  (gpt5Events st chunk).foldl (gpt5ProcessEvent now model)
    (⟨st.roleSent, st.sawText, st.finishReason⟩, [], none)

/-- The finish block run after the event loop
(`if (finishReason && !doneSent) { ... }`): returns the frames to emit
and the updated `doneSent` flag. -/
def gpt5FinishBlock (now : Nat) (model : String) (events : List String)
    (inner : InnerState) (doneSent : Bool) (sse : List String) :
    List String × Bool :=
  match inner.finishReason, doneSent with
  | some fr, false =>
    let id := gpt5FinishId now events
    let created := Json.num (toString (now / 1000))
    if ¬ inner.sawText then
      (sse ++ [outputTruncatedFrame, doneFrame], true)
    else
      (sse ++
        [ "data: " ++ (Json.obj
            [ ("id", id),
              ("object", .str "chat.completion.chunk"),
              ("created", created),
              ("model", .str model),
              ("choices", .arr
                [.obj [("index", .num "0"), ("delta", .obj []),
                       ("finish_reason", .str fr)]]) ]).stringify ++ "\n\n",
          doneFrame ], true)
  | _, _ => (sse, doneSent)

/-- One invocation of the GPT-5 "responses" streaming `chunkToSse`:
append the chunk to the buffer, split off the complete blank-line
terminated events, translate them, and run the finish block. -/
def gpt5ChunkToSse (now : Nat) (model : String) (st : Gpt5State) (chunk : String) :
    Gpt5State × List String × Option UsageTotals :=
  let folded := gpt5Folded now model st chunk
  let inner := folded.1
  let fb := gpt5FinishBlock now model (gpt5Events st chunk) inner st.doneSent folded.2.1
  let sse' := if fb.1 = [] then [""] else fb.1
  (⟨gpt5Buffer st chunk, inner.roleSent, fb.2, inner.finishReason, inner.sawText⟩,
   sse', folded.2.2)

/-- Run the GPT-5 streaming translator from a given state over a
sequence of raw upstream chunks, concatenating the emitted frames. -/
def gpt5RunFrom (now : Nat) (model : String) (st : Gpt5State)
    (chunks : List String) : Gpt5State × List String :=
  chunks.foldl
    (fun (acc : Gpt5State × List String) chunk =>
      let step := gpt5ChunkToSse now model acc.1 chunk
      (step.1, acc.2 ++ step.2.1))
    (st, [])

/-- Run the GPT-5 streaming translator over a whole stream, from the
fresh state captured when the stream handle is created. -/
def gpt5Run (now : Nat) (model : String) (chunks : List String) :
    Gpt5State × List String :=
  gpt5RunFrom now model gpt5Init chunks

end Optyx

namespace Optyx

open Js

/-- `normalizeReasoning` from `providers/openai.ts`. -/
def normalizeReasoning (reasoning : Option Json) : Json :=
  if ¬ truthyOpt reasoning then .obj [("effort", .str "low")]
  else
    match reasoning with
    | some (.str s) => .obj [("effort", .str s)]
    | some (.obj fields) =>
      if truthyOpt ((Json.obj fields).getField? "effort") then
        .obj [("effort", (((Json.obj fields).getField? "effort")).getD .null)]
      else .obj [("effort", .str "low")]
    | _ => .obj [("effort", .str "low")]

/-- `toResponsesInput` from `providers/openai.ts`. -/
def toResponsesInput (messages : List Json) : List Json :=
  messages.map (fun m =>
    let role :=
      if truthyOpt (getF (some m) "role") then (getF (some m) "role").getD .null
      else .str "user"
    let contentVal := getF (some m) "content"
    let text : String :=
      match contentVal with
      | some (.str s) => s
      | some (.arr xs) =>
        String.intercalate "\n" (xs.map (fun c =>
          match c with
          | .str s => s
          | c =>
            if strictEqStr (getF (some c) "type") "text" then
              match getF (some c) "text" with
              | some (.str t) => t
              | _ => Json.stringify c
            else Json.stringify c))
      | v => Json.stringify ((nn v).getD (.str ""))
    Json.obj
      [ ("role", role),
        ("content", .arr [.obj [("type", .str "input_text"), ("text", .str text)]]) ])

/-- Numeric value of a JSON numeric literal, as an exact rational. -/
def digitsToNat (ds : List Char) : Nat :=
  ds.foldl (fun a c => a * 10 + (c.toNat - '0'.toNat)) 0

def numLitValQ (lit : String) : Option ℚ :=
  let cs := lit.toList
  let neg := cs.head? = some '-'
  let cs1 := if cs.head? = some '-' then cs.tail else cs
  let ip := cs1.takeWhile Char.isDigit
  let rest1 := cs1.dropWhile Char.isDigit
  let fp :=
    match rest1 with
    | '.' :: r => r.takeWhile Char.isDigit
    | _ => []
  let rest2 :=
    match rest1 with
    | '.' :: r => r.dropWhile Char.isDigit
    | _ => rest1
  let ex : ℤ :=
    match rest2 with
    | 'e' :: '-' :: r => -(digitsToNat (r.takeWhile Char.isDigit) : ℤ)
    | 'E' :: '-' :: r => -(digitsToNat (r.takeWhile Char.isDigit) : ℤ)
    | 'e' :: '+' :: r => (digitsToNat (r.takeWhile Char.isDigit) : ℤ)
    | 'E' :: '+' :: r => (digitsToNat (r.takeWhile Char.isDigit) : ℤ)
    | 'e' :: r => (digitsToNat (r.takeWhile Char.isDigit) : ℤ)
    | 'E' :: r => (digitsToNat (r.takeWhile Char.isDigit) : ℤ)
    | _ => 0
  let rest3 :=
    match rest2 with
    | 'e' :: '-' :: r => r.dropWhile Char.isDigit
    | 'E' :: '-' :: r => r.dropWhile Char.isDigit
    | 'e' :: '+' :: r => r.dropWhile Char.isDigit
    | 'E' :: '+' :: r => r.dropWhile Char.isDigit
    | 'e' :: r => r.dropWhile Char.isDigit
    | 'E' :: r => r.dropWhile Char.isDigit
    | _ => rest2
  if ip = [] ∨ rest3 ≠ [] then none
  else
    let mant : ℚ := (digitsToNat ip : ℚ) + (digitsToNat fp : ℚ) / (10 : ℚ) ^ fp.length
    let v := mant * (10 : ℚ) ^ ex
    some (if neg then -v else v)

/-- JS `<=` against the literal 100, modelled for numeric JSON values
(the only values the token-cap comparison ever sees in this codebase). -/
def jsLe100 (j : Json) : Bool :=
  match j with
  | .num lit =>
    match numLitValQ lit with
    | some q => decide (q ≤ 100)
    | none => false
  | _ => false

/-- The upstream payload `toResponsesPayload` builds for the "responses"
protocol (object-literal fields, with `stream: params.stream || undefined`
and the conditionally attached `temperature` / `top_p`). -/
structure ResponsesPayload where
  model : String
  input : List Json
  max_output_tokens : Json
  stream : Bool
  reasoning : Json
  textFormat : Json
  temperature : Option Json
  top_p : Option Json

/-- `toResponsesPayload` from `providers/openai.ts`. -/
def toResponsesPayload (body : Option Json) (model : String) (stream : Bool) :
    ResponsesPayload :=
  let body0 : Json := if truthyOpt body then body.getD .null else .obj []
  let messages :=
    match body0.getField? "messages" with
    | some (.arr xs) => xs
    | _ => []
  let inputMessages := toResponsesInput messages
  let maxOutputTokens : Json :=
    match nn (body0.getField? "max_completion_tokens") with
    | some v => v
    | none =>
      match nn (body0.getField? "max_output_tokens") with
      | some v => v
      | none =>
        match nn (body0.getField? "max_tokens") with
        | some v => v
        | none => .num "120"
  { model := model
    input := inputMessages
    max_output_tokens := maxOutputTokens
    stream := stream
    reasoning :=
      if jsLe100 maxOutputTokens then .obj [("effort", .str "low")]
      else normalizeReasoning (body0.getField? "reasoning")
    textFormat := .obj [("format", .obj [("type", .str "text")])]
    temperature :=
      match nn (body0.getField? "temperature") with
      | some v => some v
      | none => none
    top_p :=
      match nn (body0.getField? "top_p") with
      | some v => some v
      | none => none }

end Optyx

namespace Optyx

open Js

/-! Embedding of the streaming relay (`streamToClient` in the gateway
entry point, `part_014`).  The relay is generic in the per-request
translator: a state machine `trans : σ → String → σ × List String ×
Option UsageTotals` standing for the (stateful-per-call) `chunkToSse`
closure. -/

/-- Rewrite the `model` field of a JSON data frame to the logical model
id, exactly as the relay's per-frame loop does. -/
def rewriteFrame (model : String) (sse : String) : String :=
  if strStartsWith (strTrim sse) "data:" && ¬ strIncludes sse "[DONE]" then
    let raw := strTrim (stripTagWs "data:" sse)
    match Json.parse raw with
    | some parsed =>
      let parsed' :=
        match parsed with
        | .obj fields => Json.obj (setField fields "model" (.str model))
        | other => other
      "data: " ++ parsed'.stringify ++ "\n\n"
    | none => sse
  else sse

/-- Running state of the relay's read loop. -/
structure RelayAcc (σ : Type) where
  st : σ
  hasSentDone : Bool
  frames : List String
  tokensIn : Option Json
  tokensOut : Option Json

/-- Usage overwrite: keep the last non-null value seen
(`if (u.prompt_tokens != null) tokensIn = u.prompt_tokens`). -/
def updTok (old : Option Json) (new : Option Json) : Option Json :=
  match new with
  | some .null => old
  | some v => some v
  | none => old

/-- One iteration of the relay's read loop on a decoded upstream chunk. -/
def relayStep {σ : Type} (trans : σ → String → σ × List String × Option UsageTotals)
    (model : String) (acc : RelayAcc σ) (chunk : String) : RelayAcc σ :=
  let step := trans acc.st chunk
  let st' := step.1
  let sse0 := step.2.1
  let usage := step.2.2
  let sse :=
    if sse0 = [] ∧ strTrim chunk ≠ "" then ["data: " ++ strTrim chunk ++ "\n\n"]
    else sse0
  let rewritten := sse.map (rewriteFrame model)
  let hasDone := acc.hasSentDone || rewritten.any (fun f => strIncludes f "[DONE]")
  let toks :=
    match usage with
    | some u => (updTok acc.tokensIn u.prompt_tokens, updTok acc.tokensOut u.completion_tokens)
    | none => (acc.tokensIn, acc.tokensOut)
  let hasDone := hasDone || strIncludes chunk "[DONE]"
  { st := st', hasSentDone := hasDone, frames := acc.frames ++ rewritten,
    tokensIn := toks.1, tokensOut := toks.2 }

/-- The immediate empty delta frame written before the loop. -/
def initialFrame (model : String) : String :=
  "data: " ++ (Json.obj
    [ ("object", .str "chat.completion.chunk"),
      ("model", .str model),
      ("choices", .arr
        [.obj [("index", .num "0"), ("delta", .obj []), ("finish_reason", .null)]])
    ]).stringify ++ "\n\n"

/-- The best-effort in-band error frame written on mid-stream failure. -/
def streamFailedFrame : String :=
  "data: " ++ (Json.obj
    [("object", .str "error"), ("message", .str "stream_failed")]).stringify ++ "\n\n"

/-- The relay read loop over the upstream chunks that were successfully
read. -/
def relayLoop {σ : Type} (trans : σ → String → σ × List String × Option UsageTotals)
    (model : String) (s0 : σ) (chunks : List String) : RelayAcc σ :=
  chunks.foldl (relayStep trans model) ⟨s0, false, [], none, none⟩

/-- All frames `streamToClient` writes to the client connection.
`chunks` are the upstream chunks successfully read; `failAfter = true`
models the upstream read throwing after those chunks (the mid-stream
failure path: best-effort error frame, then a forced terminal frame),
`failAfter = false` the upstream ending normally. -/
def streamToClientFrames {σ : Type}
    (trans : σ → String → σ × List String × Option UsageTotals)
    (model : String) (s0 : σ) (chunks : List String) (failAfter : Bool) :
    List String :=
  let acc := relayLoop trans model s0 chunks
  if failAfter then
    initialFrame model :: acc.frames ++ [streamFailedFrame, doneFrame]
  else
    initialFrame model :: acc.frames ++ (if acc.hasSentDone then [] else [doneFrame])

end Optyx

namespace Optyx

open Js

/-! Embedding of usage/cost accounting (`calculateCost` and
`aliasReverseLookup` in the gateway entry point, `part_014`). -/

/-- A row of the `providerModelPrice` table. -/
structure PriceRow where
  provider : String
  model : String
  isActive : Bool
  effectiveFrom : Nat
  inputPerMtok : ℚ
  outputPerMtok : ℚ
deriving DecidableEq, Repr

/-- `prisma.providerModelPrice.findFirst({ where: { provider, model,
isActive: true }, orderBy: { effectiveFrom: "desc" } })`: the matching
active row with the greatest `effectiveFrom` (first row wins ties). -/
def findFirstPrice (prov m : String) (tbl : List PriceRow) : Option PriceRow :=
  (tbl.filter (fun r => r.provider == prov && r.model == m && r.isActive)).foldl
    (fun acc r =>
      match acc with
      | none => some r
      | some a => if r.effectiveFrom > a.effectiveFrom then some r else some a)
    none

/-- `aliasReverseLookup[target]`: every alias string that maps to the
given canonical id (empty when the id is not an alias target). -/
def aliasReverseLookup (target : String) : List String :=
  (modelAliasesList.filter (fun p => p.2 == target)).map Prod.fst

/-- The alias retry loop inside `calculateCost`. -/
def findAliasPrice (prov : String) (aliases : List String) (tbl : List PriceRow) :
    Option PriceRow :=
  match aliases with
  | [] => none
  | a :: rest =>
    match findFirstPrice prov a tbl with
    | some p => some p
    | none => findAliasPrice prov rest tbl

/-- `calculateCost` from the gateway entry point (`part_014`): `none`
models the JS `null` ("cost unknown"). -/
def calculateCost (prov m : String) (tokensIn tokensOut : Option ℤ)
    (tbl : List PriceRow) : Option ℚ :=
  if tokensIn = none ∧ tokensOut = none then none
  else
    let price := findFirstPrice prov m tbl
    let price :=
      match price with
      | some p => some p
      | none =>
        if aliasReverseLookup m ≠ [] then findAliasPrice prov (aliasReverseLookup m) tbl
        else none
    match price with
    | none => none
    | some p =>
      let inputCost : ℚ :=
        match tokensIn with
        | some n => p.inputPerMtok * n / 1000000
        | none => 0
      let outputCost : ℚ :=
        match tokensOut with
        | some n => p.outputPerMtok * n / 1000000
        | none => 0
      some (inputCost + outputCost)

/-! Embedding of the auth pre-handler (`apiKeyPreHandler`, `part_014`). -/

inductive KeyStatus where
  | ACTIVE
  | DISABLED
deriving DecidableEq, Repr

/-- The columns `apiKeyPreHandler` selects from the key store. -/
structure KeyRec where
  id : String
  status : KeyStatus
  projectId : String
  keyPfx : String
deriving DecidableEq, Repr

structure AuthCtx where
  apiKeyId : String
  projectId : String
  apiKeyPfx : String
deriving DecidableEq, Repr

/-- Outcome of the pre-handler for one request. -/
inductive PreHandlerResult where
  | denied401
  | stampFailed
  | proceed (ctx : AuthCtx)
deriving DecidableEq, Repr

/-- `apiKeyPreHandler`: `presentedKey` is the extracted credential,
`found` the key-store row matching its hash, `stampOk` whether the
awaited `lastUsedAt` update succeeds.  The update is awaited with no
try/catch, so a rejected update rejects the pre-handler itself
(`stampFailed`), and the framework then fails the request instead of
running the route handler. -/
def apiKeyPreHandler (presentedKey : Option String) (found : Option KeyRec)
    (stampOk : Bool) : PreHandlerResult :=
  match presentedKey with
  | none => .denied401
  | some _ =>
    match found with
    | none => .denied401
    | some k =>
      if k.status ≠ .ACTIVE then .denied401
      else if stampOk then .proceed ⟨k.id, k.projectId, k.keyPfx⟩
      else .stampFailed

/-- `modelNotAllowedError` from the gateway entry point: does an upstream
error body look like an unsupported-model complaint? -/
def modelNotAllowedError (body : Option Json) : Bool :=
  let message :=
    match getF (getF body "error") "message" with
    | some (.str s) => s
    | _ => ""
  let type_ :=
    match getF (getF body "error") "type" with
    | some (.str s) => s
    | _ => ""
  if ¬ truthyOpt body then false
  else strIncludes (strToLower type_) "model" || strIncludes (strToLower message) "model"

/-! Embedding of the Google embeddings adapter
(`providers/google.ts`, `embeddings`). -/

/-- One upstream `embedContent` response: whether the HTTP call was `ok`,
the embedding values, and whatever `usage` object the provider returned
(which the adapter ignores when reporting usage). -/
structure UpstreamEmbResp where
  ok : Bool
  values : Json
  usage : Option Json

/-- Input normalisation:
`Array.isArray(raw) ? raw.map((v) => String(v ?? "")) : [String(raw ?? "")]`. -/
def normalizeEmbInputs (rawInput : Option Json) : List String :=
  match rawInput with
  | some (.arr xs) =>
    xs.map (fun v => match v with | .null => "" | v => jsToString v)
  | some v =>
    [match nn (some v) with | some u => jsToString u | none => ""]
  | none => [""]

/-- `Math.round(text.length / 4)` for a natural length (exact quarters,
half rounds up). -/
def jsRoundQuarter (n : Nat) : Nat :=
  (n + 2) / 4

/-- The synthesised token approximation:
`inputs.reduce((acc, t) => acc + Math.max(1, Math.round(t.length / 4)), 0)`. -/
def approximateTokens (inputs : List String) : Nat :=
  inputs.foldl (fun acc t => acc + max 1 (jsRoundQuarter t.length)) 0

/-- The usage object the Google embeddings adapter reports. -/
def syntheticEmbUsage (inputs : List String) : Json :=
  let approx := approximateTokens inputs
  .obj
    [ ("prompt_tokens", .num (toString approx)),
      ("completion_tokens", .num "0"),
      ("total_tokens", .num (toString approx)) ]

/-- Result of the embeddings adapter. -/
structure EmbOut where
  provider : Provider
  model : String
  status : Nat
  body : Json
  usage : Json

/-- The Google `embeddings` adapter: `keyPresent` models the
`GOOGLE_API_KEY` check, `f` the upstream call for one input text.  Any
non-`ok` upstream response aborts the whole batch with a thrown error. -/
def googleEmbeddings (model : String) (keyPresent : Bool) (rawInput : Option Json)
    (f : String → UpstreamEmbResp) : Except String EmbOut :=
  if model ≠ "gemini-embedding-001" then .error "Unsupported Google embedding model"
  else if ¬ keyPresent then .error "GOOGLE_API_KEY is not set"
  else
    let inputs := normalizeEmbInputs rawInput
    if inputs.any (fun t => ¬ (f t).ok) then .error "Embedding request failed"
    else
      let results := inputs.map f
      let data := (results.zip (List.range results.length)).map
        (fun (p : UpstreamEmbResp × Nat) =>
          Json.obj
            [ ("object", .str "embedding"),
              ("embedding", p.1.values),
              ("index", .num (toString p.2)) ])
      let usage := syntheticEmbUsage inputs
      let body := Json.obj
        [ ("object", .str "list"),
          ("data", .arr data),
          ("model", .str model),
          ("usage", usage) ]
      .ok ⟨.google, model, 200, body, usage⟩

end Optyx

namespace Optyx

open Js

/-! Embedding of the failover controller: the `POST /v1/chat/completions`
handler of `part_013` from the adapter call onward.  Database writes and
HTTP replies are recorded as data rather than performed. -/

/-- What an adapter call produced (the `ChatResult` variants restricted
to the fields the handler inspects). -/
inductive ChatOutcome where
  | json (status : Nat) (body : Option Json)
  | stream (ok : Bool) (status : Nat)

/-- The fields of a `logRequestFinish` call the claims talk about. -/
structure FinishArgs where
  status : String
  httpStatus : Option Nat
  errorKind : Option String
  fallbackUsed : Option Bool
  retryCount : Option Nat

/-- An HTTP reply sent directly by the handler. -/
structure SentResponse where
  status : Nat
  code : Option String

/-- `isFailoverStatus` from `part_013`. -/
def isFailoverStatus (status : Nat) : Bool :=
  status == 429 || status ≥ 500 || status == 408

/-- The fixed FAST-tier fallback model of `part_013`. -/
def FAST_FALLBACK_MODEL : String := "gemini-2.0-flash-lite"

/-- Trace of one handler run: whether (and how) the fallback adapter was
invoked, any early log-close and reply, and the final dispatch to
`streamToClient` / `handleChatJson` with its flags. -/
structure V1Out (β : Type) where
  fallbackCall : Option (β × Bool × String)
  finish : Option FinishArgs
  response : Option SentResponse
  dispatch : Option (ChatOutcome × Provider × String × Bool × Nat)

/-- The common tail of the handler: pick the final result and dispatch it. -/
def v1Dispatch {β : Type} (fallbackCall : Option (β × Bool × String))
    (primaryProvider : Provider) (logicalModel : String)
    (useFallback : Bool) (finalResult : ChatOutcome) : V1Out β :=
  let providerUsed := if useFallback then Provider.google else primaryProvider
  let modelUsed := if useFallback then FAST_FALLBACK_MODEL else logicalModel
  let retryCount := if useFallback then 1 else 0
  { fallbackCall := fallbackCall
    finish := none
    response := none
    dispatch := some (finalResult, providerUsed, modelUsed, useFallback, retryCount) }

/-- The `POST /v1/chat/completions` handler of `part_013`, from the
primary adapter call onward.  `primary = none` models the primary call
throwing before producing a result; `fb` is what the fallback call
produces if it is made (`none` models it throwing). -/
def chatHandlerV1 {β : Type} (tier : Tier) (primaryProvider : Provider)
    (logicalModel : String) (body : β) (stream : Bool)
    (primary : Option ChatOutcome) (fb : Option ChatOutcome) : V1Out β :=
  let primaryFailed :=
    match primary with
    | none => true
    | some (.json s _) => s ≥ 400
    | some (.stream ok _) => ¬ ok
  if primaryFailed then
    if (match primary with
        | some (.json s b) => s == 400 && modelNotAllowedError b
        | _ => false) then
      { fallbackCall := none
        finish := some ⟨"error", some 400, some "MODEL_NOT_ALLOWED", none, none⟩
        response := some ⟨400, some "MODEL_NOT_ALLOWED"⟩
        dispatch := none }
    else
      let eligibleFailure :=
        (decide (tier = Tier.FAST) && decide (primaryProvider = Provider.openai)) &&
          (match primary with
           | none => true
           | some (.json s _) => isFailoverStatus s
           | some (.stream ok s) => !ok && isFailoverStatus s)
      if eligibleFailure then
        let call := some (body, stream, FAST_FALLBACK_MODEL)
        match fb with
        | none =>
          let primaryStatus :=
            match primary with
            | some (.json s _) => s
            | some (.stream _ s) => s
            | none => 500
          { fallbackCall := call
            finish := some ⟨"error", some primaryStatus, some "fallback_failed",
                            some true, some 1⟩
            response := some ⟨502, none⟩
            dispatch := none }
        | some fbRes =>
          v1Dispatch call primaryProvider logicalModel true fbRes
      else
        match primary with
        | none =>
          { fallbackCall := none
            finish := some ⟨"error", some 500, some "upstream_fetch_failed", none, none⟩
            response := some ⟨500, none⟩
            dispatch := none }
        | some p => v1Dispatch none primaryProvider logicalModel false p
  else
    match primary with
    | some p => v1Dispatch none primaryProvider logicalModel false p
    | none =>
      { fallbackCall := none
        finish := some ⟨"error", some 500, some "upstream_fetch_failed", none, none⟩
        response := some ⟨500, none⟩
        dispatch := none }

/-- The log-close `handleChatJson` performs for a JSON result dispatched
with the given flags. -/
def handleChatJsonFinish (status : Nat) (body : Option Json)
    (fallbackUsed : Bool) (retryCount : Nat) : FinishArgs :=
  let success := 200 ≤ status ∧ status < 300
  { status := if success then "success" else "error"
    httpStatus := some status
    errorKind :=
      if success then none
      else
        match getF (getF body "error") "type" with
        | some (.str s) => some s
        | _ => some "upstream_error"
    fallbackUsed := some fallbackUsed
    retryCount := some retryCount }

end Optyx

namespace Optyx

open Js

/-! Embedding of the current `POST /v1/chat/completions` handler
(`part_014`): validation, tier/model resolution, log open, provider call,
upstream model-not-allowed check, dispatch. -/

/-- The project policy the handler loads (`getProjectSettings`). -/
structure ProjectSettings where
  defaultTier : Tier
  allowedChatModels : List String
  allowedEmbeddingModels : List String
deriving Repr

/-- `ensureModelAllowed`: catalog entry of the right type contained in
the caller's allowed set, else `none` (which the handler turns into a
400 `MODEL_NOT_ALLOWED`). -/
def ensureModelAllowed (modelId : String) (allowed : List String) (t : MType) :
    Option ModelEntry :=
  match catalogById modelId with
  | none => none
  | some e => if e.type = t ∧ allowed.contains modelId then some e else none

/-- Environment switches the handler reads. -/
structure GatewayEnv where
  openaiKey : Bool
  googleKey : Bool
  mock : Bool

/-- Terminal outcome of the handler run. -/
inductive V2Outcome where
  | unauthorized401
  | validation400
  | projectNotFound404
  | modelNotAllowed400
  | configError500
  | fetchFailed500
  | upstreamModelNotAllowed400
  | mockStreamReply
  | streamDispatch (provider : Provider) (model : String)
  | jsonDispatch (result : ChatOutcome) (provider : Provider) (model : String)

/-- Trace of one handler run: the outcome plus whether an audit-log row
was opened and whether a provider adapter was invoked (and with which
logical model). -/
structure V2Trace where
  outcome : V2Outcome
  resolvedHeader : Option String
  logStarted : Bool
  adapterCalled : Option String

/-- The `POST /v1/chat/completions` handler of `part_014`.  `body` is the
parsed request body; `settings` the project policy (`none` when the
project row is missing); `primary` the primary adapter outcome (`none`
when the call throws).  The `model` field is modelled for string-valued
or absent inputs, the only shapes the catalog and alias table can match. -/
def chatHandlerV2 (authed : Bool) (body : Option Json)
    (tierHeader routeTagHeader : Option String)
    (settings : Option ProjectSettings) (env : GatewayEnv)
    (primary : Option ChatOutcome) : V2Trace :=
  if ¬ authed then ⟨.unauthorized401, none, false, none⟩
  else if ¬ (truthyOpt body &&
      (match getF body "messages" with | some (.arr _) => true | _ => false)) then
    ⟨.validation400, none, false, none⟩
  else
    match settings with
    | none => ⟨.projectNotFound404, none, false, none⟩
    | some st =>
      let tier :=
        if tierHeader = some "smart" ∨ routeTagHeader = some "critical" then Tier.SMART
        else st.defaultTier
      let requestedModel : Option String :=
        match nn (getF body "model") with
        | some (.str s) => some s
        | _ => none
      let norm := normalizeModelId requestedModel
      let resolvedModel := norm.1
      let aliasOf := norm.2
      let resolved : Option (String × ModelEntry) :=
        match requestedModel with
        | some s =>
          if s = "" then
            -- `if (requestedModel)` is false for the empty string: fall
            -- through to the tier default exactly as the code does
            let lm := if tier = Tier.SMART then defaultSmartModelId else defaultFastModelId
            (ensureModelAllowed lm st.allowedChatModels .chat).map (fun e => (lm, e))
          else
            match resolvedModel with
            | none => none
            | some lm =>
              match catalogById lm with
              | some e =>
                if e.type = MType.chat ∧ st.allowedChatModels.contains lm then
                  some (lm, e)
                else none
              | none => none
        | none =>
          let lm := if tier = Tier.SMART then defaultSmartModelId else defaultFastModelId
          (ensureModelAllowed lm st.allowedChatModels .chat).map (fun e => (lm, e))
      match resolved with
      | none => ⟨.modelNotAllowed400, none, false, none⟩
      | some (logicalModel, entry) =>
        let provider := entry.provider
        let header := some ((if aliasOf.isSome then resolvedModel.getD logicalModel
                             else logicalModel))
        let keyMissing :=
          (provider = Provider.openai ∧ ¬ env.openaiKey) ∨
          (provider = Provider.google ∧ ¬ env.googleKey)
        if keyMissing then ⟨.configError500, header, true, none⟩
        else
          let streamFlag := truthyOpt (getF body "stream")
          if env.mock ∧ streamFlag then ⟨.mockStreamReply, header, true, none⟩
          else if env.mock then
            ⟨.jsonDispatch (.json 200 none) provider logicalModel, header, true, none⟩
          else
            match primary with
            | none => ⟨.fetchFailed500, header, true, some logicalModel⟩
            | some res =>
              if (match res with
                  | .json s b => 400 ≤ s && s < 500 && modelNotAllowedError b
                  | _ => false) then
                ⟨.upstreamModelNotAllowed400, header, true, some logicalModel⟩
              else
                match res with
                | .stream ok s =>
                  ⟨.streamDispatch provider logicalModel, header, true, some logicalModel⟩
                | .json s b =>
                  ⟨.jsonDispatch (.json s b) provider logicalModel, header, true,
                    some logicalModel⟩

end Optyx

namespace Optyx

open Js

/-- The passthrough translator as a relay state machine (legacy OpenAI
models: frames pass through unchanged, usage is scanned per chunk). -/
def passthroughTrans : Unit → String → Unit × List String × Option UsageTotals :=
  fun _ chunk => ((), openaiPassthroughChunkToSse chunk)

/-- Modelled from the spec: the token cap as the spec's words describe it
("first non-null of several aliases, default 120"), used as the reference
value the payload construction is compared against. -/
def specTokenCap (mc mo mt : Option ℚ) : ℚ :=
  match mc with
  | some v => v
  | none =>
    match mo with
    | some v => v
    | none =>
      match mt with
      | some v => v
      | none => 120

/-- Reads a token-cap field of the request body as an optional rational:
`some none` = absent or JSON null, `some (some q)` = a numeric value `q`,
`none` = a non-numeric value (outside the modelled domain). -/
def numField (body : Option Json) (k : String) : Option (Option ℚ) :=
  match nn (getF body k) with
  | none => some none
  | some (.num lit) =>
    match numLitValQ lit with
    | some q => some (some q)
    | none => none
  | some _ => none

/-- Discriminator: did the pre-handler let the request proceed? -/
def isProceed : PreHandlerResult → Bool
  | .proceed _ => true
  | _ => false

/-- Discriminator: was the request rejected by body validation? -/
def isValidation400 : V2Outcome → Bool
  | .validation400 => true
  | _ => false

/-- Projection: the `fallbackUsed` flag a dispatch hands to
`streamToClient` / `handleChatJson`. -/
def dispatchFallbackUsed {β : Type} (out : V1Out β) : Option Bool :=
  out.dispatch.map (fun d => d.2.2.2.1)

/-- Projection: the `retryCount` a dispatch hands on. -/
def dispatchRetryCount {β : Type} (out : V1Out β) : Option Nat :=
  out.dispatch.map (fun d => d.2.2.2.2)

end Optyx

namespace Optyx

open Js

theorem approximateTokens_eq_sum (inputs : List String) :
    approximateTokens inputs =
      (inputs.map (fun t => max 1 ((t.length + 2) / 4))).sum := by
  have key : ∀ (l : List String) (a : Nat),
      l.foldl (fun acc t => acc + max 1 (jsRoundQuarter t.length)) a =
        a + (l.map (fun t => max 1 ((t.length + 2) / 4))).sum := by
    intro l
    induction l with
    | nil => intro a; simp [List.map, List.sum]
    | cons x xs ih =>
      intro a
      simp only [jsRoundQuarter] at ih ⊢
      simp only [List.foldl, List.map_cons, List.sum_cons]
      rw [ih]
      omega
  simpa using key inputs 0

/-- C7: a price lookup for a model whose active rows live only under an
alias succeeds, with the same result as if the row were stored under the
canonical id; and when no row exists under either name, or both token
counts are unknown, the computed cost is `null` (unknown), never zero. -/
theorem c7_alias_price_roundtrip (prov m : String) (tIn tOut : Option ℤ)
    (tbl tbl' : List PriceRow) (r : PriceRow) :
    ((tIn = none ∧ tOut = none) → calculateCost prov m tIn tOut tbl = none) ∧
    ((findFirstPrice prov m tbl = none ∧
        findAliasPrice prov (aliasReverseLookup m) tbl = none) →
      calculateCost prov m tIn tOut tbl = none) ∧
    (∀ r' : PriceRow, ¬ (tIn = none ∧ tOut = none) →
      findFirstPrice prov m tbl = none →
      findAliasPrice prov (aliasReverseLookup m) tbl = some r →
      findFirstPrice prov m tbl' = some r' →
      r'.inputPerMtok = r.inputPerMtok →
      r'.outputPerMtok = r.outputPerMtok →
      calculateCost prov m tIn tOut tbl = calculateCost prov m tIn tOut tbl' ∧
        (calculateCost prov m tIn tOut tbl).isSome = true) := by
  refine ⟨?_, ?_, ?_⟩
  · intro h
    simp [calculateCost, h.1, h.2]
  · intro h
    by_cases ht : tIn = none ∧ tOut = none
    · simp [calculateCost, ht.1, ht.2]
    · by_cases ha : aliasReverseLookup m = []
      · simp [calculateCost, ht, h.1, ha]
      · simp [calculateCost, ht, h.1, h.2, ha]
  · intro r' ht h1 h2 h3 hpi hpo
    have ha : aliasReverseLookup m ≠ [] := by
      intro he
      rw [he] at h2
      simp [findAliasPrice] at h2
    constructor
    · simp [calculateCost, ht, h1, h2, h3, ha, hpi, hpo]
    · simp [calculateCost, ht, h1, h2, ha]

/-- Witness for C7 at a concrete table: the only active row for
`gpt-5-nano-2025-08-07` is stored under the alias `gpt-5-nano`, and the
computed cost agrees with the canonically-stored table. -/
theorem c7_witness :
    calculateCost "openai" defaultFastModelId (some 1000000) none
        [⟨"openai", "gpt-5-nano", true, 10, 3, 12⟩] =
      calculateCost "openai" defaultFastModelId (some 1000000) none
        [⟨"openai", defaultFastModelId, true, 10, 3, 12⟩] ∧
    (calculateCost "openai" defaultFastModelId (some 1000000) none
        [⟨"openai", "gpt-5-nano", true, 10, 3, 12⟩]).isSome = true := by
  exact (c7_alias_price_roundtrip "openai" defaultFastModelId (some 1000000) none
      [⟨"openai", "gpt-5-nano", true, 10, 3, 12⟩]
      [⟨"openai", defaultFastModelId, true, 10, 3, 12⟩]
      ⟨"openai", "gpt-5-nano", true, 10, 3, 12⟩).2.2
    ⟨"openai", defaultFastModelId, true, 10, 3, 12⟩
    (by simp) (by decide) (by decide) (by decide) (by decide) (by decide)

/-- C8: the `lastUsedAt` stamp write is awaited with no error handling,
so a failing stamp rejects the pre-handler and the request does not
proceed to normal handling — contradicting the spec's "failure to stamp
must not fail the request". -/
theorem c8_stamp_failure_fails_request :
    apiKeyPreHandler (some "sk-test") (some ⟨"key1", .ACTIVE, "proj1", "sk-te"⟩) false =
      .stampFailed ∧
    isProceed (apiKeyPreHandler (some "sk-test")
      (some ⟨"key1", .ACTIVE, "proj1", "sk-te"⟩) false) = false ∧
    apiKeyPreHandler (some "sk-test") (some ⟨"key1", .ACTIVE, "proj1", "sk-te"⟩) true =
      .proceed ⟨"key1", "proj1", "sk-te"⟩ := by
  exact ⟨rfl, rfl, rfl⟩

/-- C10: the Google embeddings adapter synthesises usage from input
lengths — `prompt_tokens` is the sum over inputs of
`max 1 (round (length / 4))`, `completion_tokens` is 0, `total_tokens`
equals `prompt_tokens` — both in the response body and in the usage handed
to cost accounting, regardless of whatever usage the upstream returned. -/
theorem c10_embeddings_usage_synthesized (rawInput : Option Json)
    (f : String → UpstreamEmbResp)
    (hok : ∀ t ∈ normalizeEmbInputs rawInput, (f t).ok = true) :
    ∃ out, googleEmbeddings "gemini-embedding-001" true rawInput f = .ok out ∧
      out.usage = syntheticEmbUsage (normalizeEmbInputs rawInput) ∧
      out.body.getField? "usage" = some (syntheticEmbUsage (normalizeEmbInputs rawInput)) ∧
      out.status = 200 ∧
      out.usage.getField? "prompt_tokens" =
        some (.num (toString (((normalizeEmbInputs rawInput).map
          (fun t => max 1 ((t.length + 2) / 4))).sum))) ∧
      out.usage.getField? "completion_tokens" = some (.num "0") := by
  have hany : (normalizeEmbInputs rawInput).any (fun t => ¬ (f t).ok) = false := by
    rw [List.any_eq_false]
    intro t ht
    simp [hok t ht]
  unfold googleEmbeddings
  rw [if_neg (by simp), if_neg (by simp), if_neg (by rw [hany]; simp)]
  refine ⟨_, rfl, rfl, ?_, rfl, ?_, ?_⟩
  · simp [Json.getField?, List.find?]
  · simp [syntheticEmbUsage, Json.getField?, List.find?, approximateTokens_eq_sum]
  · simp [syntheticEmbUsage, Json.getField?, List.find?]

/-- Witness for C10: two inputs of lengths 5 and 2 yield a synthesised
`prompt_tokens` of 2, even though the upstream reported 999. -/
theorem c10_witness :
    ∃ out, googleEmbeddings "gemini-embedding-001" true
        (some (.arr [.str "hello", .str "ab"]))
        (fun _ => ⟨true, .arr [], some (.obj [("prompt_tokens", .num "999")])⟩) =
        .ok out ∧
      out.usage.getField? "prompt_tokens" = some (.num "2") := by
  obtain ⟨out, h1, _h2, _h3, _h4, h5, _h6⟩ :=
    c10_embeddings_usage_synthesized (some (.arr [.str "hello", .str "ab"]))
      (fun _ => ⟨true, .arr [], some (.obj [("prompt_tokens", .num "999")])⟩)
      (by intro t _ht; rfl)
  exact ⟨out, h1, by rw [h5]; rfl⟩

end Optyx

namespace Optyx

open Js

/-- C4: when the primary provider returns a 400 whose body indicates an
unsupported model, the handler surfaces 400 `MODEL_NOT_ALLOWED` at once:
no fallback call is made, the audit row closes with error class
`MODEL_NOT_ALLOWED`, and nothing is dispatched. -/
theorem c4_upstream_model_not_allowed_no_fallback {β : Type} (tier : Tier)
    (prov : Provider) (lm : String) (body : β) (stream : Bool)
    (b : Option Json) (fb : Option ChatOutcome)
    (hb : modelNotAllowedError b = true) :
    (chatHandlerV1 tier prov lm body stream (some (.json 400 b)) fb).fallbackCall
        = none ∧
    (chatHandlerV1 tier prov lm body stream (some (.json 400 b)) fb).response
        = some ⟨400, some "MODEL_NOT_ALLOWED"⟩ ∧
    (chatHandlerV1 tier prov lm body stream (some (.json 400 b)) fb).finish
        = some ⟨"error", some 400, some "MODEL_NOT_ALLOWED", none, none⟩ ∧
    (chatHandlerV1 tier prov lm body stream (some (.json 400 b)) fb).dispatch
        = none := by
  have : chatHandlerV1 tier prov lm body stream (some (.json 400 b)) fb =
      { fallbackCall := none
        finish := some ⟨"error", some 400, some "MODEL_NOT_ALLOWED", none, none⟩
        response := some ⟨400, some "MODEL_NOT_ALLOWED"⟩
        dispatch := none } := by
    unfold chatHandlerV1
    simp [hb]
  rw [this]
  exact ⟨rfl, rfl, rfl, rfl⟩

/-- Witness for C4: a concrete upstream 400 with a model-shaped error
body is surfaced directly, with no fallback call. -/
theorem c4_witness :
    modelNotAllowedError
        (some (.obj [("error", .obj [("message", .str "The model gpt-5-x does not exist"),
                                     ("type", .str "invalid_request_error")])])) = true ∧
    (chatHandlerV1 .FAST .openai "gpt-5-nano-2025-08-07" () false
        (some (.json 400 (some (.obj
          [("error", .obj [("message", .str "The model gpt-5-x does not exist"),
                           ("type", .str "invalid_request_error")])]))))
        none).fallbackCall = none ∧
    (chatHandlerV1 .FAST .openai "gpt-5-nano-2025-08-07" () false
        (some (.json 400 (some (.obj
          [("error", .obj [("message", .str "The model gpt-5-x does not exist"),
                           ("type", .str "invalid_request_error")])]))))
        none).response = some ⟨400, some "MODEL_NOT_ALLOWED"⟩ := by
  have h := c4_upstream_model_not_allowed_no_fallback Tier.FAST Provider.openai
    "gpt-5-nano-2025-08-07" () false
    (some (.obj [("error", .obj [("message", .str "The model gpt-5-x does not exist"),
                                 ("type", .str "invalid_request_error")])]))
    none (by rfl)
  exact ⟨rfl, h.1, h.2.1⟩

/-- C6: the Google streaming translator keeps no buffer between calls,
so a JSON fragment split across two chunk boundaries is silently lost
(neither piece yields a frame), while the same bytes in one chunk yield
a content frame — the emitted frames do not depend only on the
concatenated stream content. -/
theorem c6_google_translator_drops_split_fragment :
    googleChunkToSse 0 "gemini-2.0-flash-lite"
        "\x7b\"candidates\":[\x7b\"content\":\x7b\"parts\":[\x7b\"text\":\"hi\"\x7d" = [] ∧
    googleChunkToSse 0 "gemini-2.0-flash-lite" "]\x7d\x7d]\x7d" = [] ∧
    googleChunkToSse 0 "gemini-2.0-flash-lite"
        ("\x7b\"candidates\":[\x7b\"content\":\x7b\"parts\":[\x7b\"text\":\"hi\"\x7d" ++
          "]\x7d\x7d]\x7d") =
      ["data: " ++ (googleChunkPayload 0 "gemini-2.0-flash-lite" "hi").stringify ++ "\n\n"] := by
  exact ⟨rfl, rfl, rfl⟩

/-- Counterexample to C9: a body whose `messages` is the empty array is
not rejected by validation — the audit row is opened and the provider
adapter is invoked. -/
theorem c9_counterexample :
    getF (some (Json.obj [("model", .str "gpt-5-nano"), ("messages", .arr [])]))
        "messages" = some (.arr []) ∧
    isValidation400 (chatHandlerV2 true
        (some (.obj [("model", .str "gpt-5-nano"), ("messages", .arr [])]))
        none none
        (some ⟨.FAST, [defaultFastModelId, "gemini-2.0-flash-lite"],
               ["gemini-embedding-001"]⟩)
        ⟨true, true, false⟩ (some (.json 200 none))).outcome = false ∧
    (chatHandlerV2 true
        (some (.obj [("model", .str "gpt-5-nano"), ("messages", .arr [])]))
        none none
        (some ⟨.FAST, [defaultFastModelId, "gemini-2.0-flash-lite"],
               ["gemini-embedding-001"]⟩)
        ⟨true, true, false⟩ (some (.json 200 none))).logStarted = true ∧
    (chatHandlerV2 true
        (some (.obj [("model", .str "gpt-5-nano"), ("messages", .arr [])]))
        none none
        (some ⟨.FAST, [defaultFastModelId, "gemini-2.0-flash-lite"],
               ["gemini-embedding-001"]⟩)
        ⟨true, true, false⟩ (some (.json 200 none))).adapterCalled =
      some defaultFastModelId := by
  exact ⟨rfl, rfl, rfl, rfl⟩

/-- C9 (amended): a body that is absent/falsy or whose `messages` field
is not an array is rejected by validation with a 400, before any log row
is opened or any provider adapter is invoked. -/
theorem c9_amended (body : Option Json) (th rt : Option String)
    (settings : Option ProjectSettings) (env : GatewayEnv)
    (primary : Option ChatOutcome)
    (h : truthyOpt body = false ∨ ∀ xs, getF body "messages" ≠ some (.arr xs)) :
    chatHandlerV2 true body th rt settings env primary =
      ⟨.validation400, none, false, none⟩ := by
  have hcond : (truthyOpt body &&
      (match getF body "messages" with
       | some (.arr _) => true
       | _ => false)) = false := by
    rcases h with h | h
    · simp [h]
    · cases hm : getF body "messages" with
      | none => simp [hm]
      | some v =>
        cases v with
        | arr xs => exact absurd hm (h xs)
        | null => simp [hm]
        | bool b => simp [hm]
        | num l => simp [hm]
        | str s => simp [hm]
        | obj fs => simp [hm]
  unfold chatHandlerV2
  rw [if_neg (by simp), if_pos (by simp [hcond])]

/-- Witness for C9 (amended): a body whose `messages` is a string is
rejected before any log row or provider call. -/
theorem c9_witness :
    chatHandlerV2 true (some (.obj [("messages", .str "oops")])) none none
        (some ⟨.FAST, [defaultFastModelId], []⟩) ⟨true, true, false⟩
        (some (.json 200 none)) =
      ⟨.validation400, none, false, none⟩ := by
  exact c9_amended (some (.obj [("messages", .str "oops")])) none none
    (some ⟨.FAST, [defaultFastModelId], []⟩) ⟨true, true, false⟩
    (some (.json 200 none))
    (Or.inr (fun xs hx => by simp [getF, Json.getField?, List.find?] at hx))

end Optyx

namespace Optyx

open Js

/-- Counterexample to C3: a FAST-tier request served by the Google
provider whose primary call returns 503 (an eligible failover status)
triggers no fallback — eligibility additionally requires the primary
provider to be OpenAI — and the 503 result is dispatched with
`fallbackUsed = false`, `retryCount = 0`. -/
theorem c3_counterexample :
    isFailoverStatus 503 = true ∧
    (chatHandlerV1 .FAST .google "gemini-2.0-flash-lite" () false
      (some (.json 503 (some (.obj
        [("error", .obj [("message", .str "Service Unavailable")])]))))
      (some (.json 200 none))).fallbackCall = none ∧
    dispatchFallbackUsed (chatHandlerV1 .FAST .google "gemini-2.0-flash-lite" () false
      (some (.json 503 (some (.obj
        [("error", .obj [("message", .str "Service Unavailable")])]))))
      (some (.json 200 none))) = some false ∧
    dispatchRetryCount (chatHandlerV1 .FAST .google "gemini-2.0-flash-lite" () false
      (some (.json 503 (some (.obj
        [("error", .obj [("message", .str "Service Unavailable")])]))))
      (some (.json 200 none))) = some 0 := by
  exact ⟨rfl, rfl, rfl, rfl⟩

/-- C3 (amended): for FAST-tier requests whose primary provider is
OpenAI, an eligible primary failure (throw, or failover-class status
429/≥500/408 on a JSON or non-ok stream result) invokes the Google
fallback with the same request body and the fixed fallback model id;
whatever the fallback returns is dispatched with `fallbackUsed = true`,
`retryCount = 1`, and for a successful JSON fallback the audit row
closes as `success` with `fallbackUsed = true`, `retryCount = 1`. -/
theorem c3_amended {β : Type} (lm : String) (body : β) (stream : Bool)
    (primary : Option ChatOutcome) (fb : Option ChatOutcome)
    (helig : primary = none ∨
      (∃ s b, primary = some (.json s b) ∧ isFailoverStatus s = true) ∨
      (∃ s, primary = some (.stream false s) ∧ isFailoverStatus s = true)) :
    (chatHandlerV1 .FAST .openai lm body stream primary fb).fallbackCall =
      some (body, stream, FAST_FALLBACK_MODEL) ∧
    (∀ r, fb = some r →
      (chatHandlerV1 .FAST .openai lm body stream primary fb).dispatch =
        some (r, .google, FAST_FALLBACK_MODEL, true, 1)) ∧
    (∀ s b, fb = some (.json s b) → 200 ≤ s → s < 300 →
      handleChatJsonFinish s b true 1 =
        ⟨"success", some s, none, some true, some 1⟩) := by
  have hfin : ∀ s (b : Option Json), 200 ≤ s → s < 300 →
      handleChatJsonFinish s b true 1 =
        ⟨"success", some s, none, some true, some 1⟩ := by
    intro s b hl hr
    unfold handleChatJsonFinish
    simp [hl, hr]
  rcases helig with h | ⟨s, b, h, hs⟩ | ⟨s, h, hs⟩
  · subst h
    refine ⟨?_, ?_, fun s b hfb hl hr => hfin s b hl hr⟩
    · unfold chatHandlerV1
      cases fb <;> simp [v1Dispatch]
    · intro r hfb
      subst hfb
      unfold chatHandlerV1
      simp [v1Dispatch]
  · subst h
    have h400 : s ≠ 400 := by
      intro he
      subst he
      simp [isFailoverStatus] at hs
    have hge : s ≥ 400 := by
      simp only [isFailoverStatus, Bool.or_eq_true, beq_iff_eq,
        decide_eq_true_eq] at hs
      omega
    refine ⟨?_, ?_, fun s' b' hfb hl hr => hfin s' b' hl hr⟩
    · unfold chatHandlerV1
      rw [if_pos (by simpa using hge)]
      rw [if_neg (by simp [h400])]
      rw [if_pos (by simp [hs])]
      cases fb <;> simp [v1Dispatch]
    · intro r hfb
      subst hfb
      unfold chatHandlerV1
      rw [if_pos (by simpa using hge)]
      rw [if_neg (by simp [h400])]
      rw [if_pos (by simp [hs])]
      simp [v1Dispatch]
  · subst h
    refine ⟨?_, ?_, fun s' b' hfb hl hr => hfin s' b' hl hr⟩
    · unfold chatHandlerV1
      rw [if_pos (by simp)]
      rw [if_neg (by simp)]
      rw [if_pos (by simp [hs])]
      cases fb <;> simp [v1Dispatch]
    · intro r hfb
      subst hfb
      unfold chatHandlerV1
      rw [if_pos (by simp)]
      rw [if_neg (by simp)]
      rw [if_pos (by simp [hs])]
      simp [v1Dispatch]

/-- Witness for C3 (amended): a 503 from the OpenAI primary with a
successful Google fallback: the fallback is called with the same body
and the fixed model, and the dispatch carries `fallbackUsed = true`,
`retryCount = 1`. -/
theorem c3_witness :
    (chatHandlerV1 .FAST .openai "gpt-5-nano-2025-08-07" () true
      (some (.json 503 none)) (some (.json 200 none))).fallbackCall =
        some ((), true, FAST_FALLBACK_MODEL) ∧
    (chatHandlerV1 .FAST .openai "gpt-5-nano-2025-08-07" () true
      (some (.json 503 none)) (some (.json 200 none))).dispatch =
        some (.json 200 none, .google, FAST_FALLBACK_MODEL, true, 1) ∧
    handleChatJsonFinish 200 none true 1 =
      ⟨"success", some 200, none, some true, some 1⟩ := by
  have h := c3_amended "gpt-5-nano-2025-08-07" () true
    (some (.json 503 none)) (some (.json 200 none))
    (Or.inr (Or.inl ⟨503, none, rfl, rfl⟩))
  exact ⟨h.1, h.2.1 (.json 200 none) rfl, h.2.2 200 none rfl (by omega) (by omega)⟩

end Optyx

namespace Optyx

open Js

theorem numLitValQ_allDigits (lit : String) (hne : lit.toList ≠ [])
    (hd : ∀ c ∈ lit.toList, Char.isDigit c)
    (hh : lit.toList.head? ≠ some '-') :
    numLitValQ lit = some ((digitsToNat lit.toList : ℕ) : ℚ) := by
  have h1 : lit.toList.takeWhile Char.isDigit = lit.toList :=
    List.takeWhile_eq_self_iff.mpr hd
  have h2 : lit.toList.dropWhile Char.isDigit = [] :=
    List.dropWhile_eq_nil_iff.mpr hd
  have hne' : lit.toList = [] ↔ False := iff_false_intro hne
  have hh' : lit.toList.head? = some '-' ↔ False := iff_false_intro hh
  simp only [numLitValQ, hh', if_false, h1, h2, hne', or_self, ne_eq,
    not_true_eq_false, not_false_eq_true]
  norm_num [digitsToNat]

theorem payload_reasoning_low (body : Option Json) (model : String) (stream : Bool)
    (h : jsLe100 (toResponsesPayload body model stream).max_output_tokens = true) :
    (toResponsesPayload body model stream).reasoning = .obj [("effort", .str "low")] := by
  unfold toResponsesPayload at h ⊢
  dsimp only at h ⊢
  rw [if_pos h]

theorem numField_inv {body : Option Json} {k : String} {r : Option ℚ}
    (h : numField body k = some r) :
    (r = none ∧ nn (getF body k) = none) ∨
    (∃ lit q, r = some q ∧ nn (getF body k) = some (.num lit) ∧
      numLitValQ lit = some q) := by
  unfold numField at h
  cases hv : nn (getF body k) with
  | none =>
    rw [hv] at h
    simp at h
    exact Or.inl ⟨h.symm, rfl⟩
  | some v =>
    rw [hv] at h
    cases v with
    | num lit =>
      have h' : (match numLitValQ lit with
        | some q => some (some q)
        | none => (none : Option (Option ℚ))) = some r := h
      cases hq : numLitValQ lit with
      | none => rw [hq] at h'; simp at h'
      | some q =>
        rw [hq] at h'
        simp at h'
        exact Or.inr ⟨lit, q, h'.symm, rfl, hq⟩
    | null => simp at h
    | bool b => simp at h
    | str s => simp at h
    | arr xs => simp at h
    | obj fs => simp at h

theorem body0_getField (body : Option Json) (k : String) :
    ((if truthyOpt body then body.getD .null else .obj []) : Json).getField? k =
      getF body k := by
  cases body with
  | none => simp [truthyOpt, getF, Json.getField?, List.find?]
  | some v =>
    by_cases hv : truthy v
    · simp [truthyOpt, hv, getF]
    · cases v with
      | null => simp [truthyOpt, hv, getF, Json.getField?, List.find?]
      | bool b => simp [truthyOpt, hv, getF, Json.getField?, List.find?]
      | num lit => simp [truthyOpt, hv, getF, Json.getField?, List.find?]
      | str s => simp [truthyOpt, hv, getF, Json.getField?, List.find?]
      | arr xs => simp [truthyOpt, hv, getF, Json.getField?, List.find?]
      | obj fs => simp [truthy] at hv

/-- C5: the token cap sent upstream by the "responses" translator is the
first non-null of `max_completion_tokens`, `max_output_tokens`,
`max_tokens` (120 when all are absent), and whenever that cap is ≤ 100
the reasoning hint is forced to `low` regardless of the caller's
`reasoning` field. -/
theorem c5_token_cap_and_reasoning (body : Option Json) (model : String)
    (stream : Bool) (mc mo mt : Option ℚ)
    (h1 : numField body "max_completion_tokens" = some mc)
    (h2 : numField body "max_output_tokens" = some mo)
    (h3 : numField body "max_tokens" = some mt) :
    (∃ lit, (toResponsesPayload body model stream).max_output_tokens = .num lit ∧
        numLitValQ lit = some (specTokenCap mc mo mt)) ∧
    (specTokenCap mc mo mt ≤ 100 →
      (toResponsesPayload body model stream).reasoning =
        .obj [("effort", .str "low")]) := by
  have hcap : ∃ lit,
      (toResponsesPayload body model stream).max_output_tokens = .num lit ∧
      numLitValQ lit = some (specTokenCap mc mo mt) := by
    unfold toResponsesPayload
    rcases numField_inv h1 with ⟨hmc, hv1⟩ | ⟨lit1, q1, hmc, hv1, hq1⟩
    · rcases numField_inv h2 with ⟨hmo, hv2⟩ | ⟨lit2, q2, hmo, hv2, hq2⟩
      · rcases numField_inv h3 with ⟨hmt, hv3⟩ | ⟨lit3, q3, hmt, hv3, hq3⟩
        · refine ⟨"120", ?_, ?_⟩
          · simp only [body0_getField, hv1, hv2, hv3]
          · subst hmc hmo hmt
            have h120 : numLitValQ "120" = some ((digitsToNat "120".toList : ℕ) : ℚ) :=
              numLitValQ_allDigits "120" (by decide) (by decide) (by decide)
            have hd : digitsToNat "120".toList = 120 := by decide
            rw [h120, hd]
            norm_num [specTokenCap]
        · refine ⟨lit3, ?_, ?_⟩
          · simp only [body0_getField, hv1, hv2, hv3]
          · subst hmc hmo hmt
            simpa [specTokenCap] using hq3
      · refine ⟨lit2, ?_, ?_⟩
        · simp only [body0_getField, hv1, hv2]
        · subst hmc hmo
          simpa [specTokenCap] using hq2
    · refine ⟨lit1, ?_, ?_⟩
      · simp only [body0_getField, hv1]
      · subst hmc
        simpa [specTokenCap] using hq1
  refine ⟨hcap, ?_⟩
  intro hle
  obtain ⟨lit, hl, hq⟩ := hcap
  have hjs : jsLe100 (toResponsesPayload body model stream).max_output_tokens = true := by
    rw [hl]
    show (match numLitValQ lit with
          | some q => decide (q ≤ 100)
          | none => false) = true
    rw [hq]
    simpa using hle
  exact payload_reasoning_low body model stream hjs

/-- Witness for C5: with only `max_tokens = 50` set and an explicit
`reasoning: "high"`, the payload carries cap 50 and forces `low`. -/
theorem c5_witness :
    (∃ lit, (toResponsesPayload
        (some (.obj [("max_tokens", .num "50"), ("reasoning", .str "high"),
                     ("messages", .arr [])]))
        "gpt-5-nano-2025-08-07" true).max_output_tokens = .num lit ∧
      numLitValQ lit = some (specTokenCap none none (some 50))) ∧
    (toResponsesPayload
        (some (.obj [("max_tokens", .num "50"), ("reasoning", .str "high"),
                     ("messages", .arr [])]))
        "gpt-5-nano-2025-08-07" true).reasoning = .obj [("effort", .str "low")] := by
  have h := c5_token_cap_and_reasoning
    (some (.obj [("max_tokens", .num "50"), ("reasoning", .str "high"),
                 ("messages", .arr [])]))
    "gpt-5-nano-2025-08-07" true none none (some 50)
    (by rfl) (by rfl)
    (by
      have h50 : numLitValQ "50" = some ((digitsToNat "50".toList : ℕ) : ℚ) :=
        numLitValQ_allDigits "50" (by decide) (by decide) (by decide)
      have hd : digitsToNat "50".toList = 50 := by decide
      unfold numField
      simp [getF, Json.getField?, List.find?, nn, h50, hd]
      rw [show digitsToNat ['5', '0'] = 50 from by decide]
      norm_num)
  exact ⟨h.1, h.2 (by unfold specTokenCap; norm_num)⟩

end Optyx

namespace Optyx

open Js

theorem relay_frames_decomp {σ : Type}
    (trans : σ → String → σ × List String × Option UsageTotals) (model : String) :
    ∀ (chunks : List String) (acc : RelayAcc σ),
      ∃ l, (chunks.foldl (relayStep trans model) acc).frames = acc.frames ++ l := by
  intro chunks
  induction chunks with
  | nil => intro acc; exact ⟨[], by simp⟩
  | cons c cs ih =>
    intro acc
    obtain ⟨l, hl⟩ := ih (relayStep trans model acc c)
    obtain ⟨l1, h1⟩ : ∃ l1, (relayStep trans model acc c).frames = acc.frames ++ l1 :=
      ⟨_, rfl⟩
    refine ⟨l1 ++ l, ?_⟩
    rw [List.foldl_cons, hl, h1, List.append_assoc]

theorem relay_no_done {σ : Type}
    (trans : σ → String → σ × List String × Option UsageTotals) (model : String) :
    ∀ (chunks : List String) (acc : RelayAcc σ),
      acc.hasSentDone = false →
      (∀ f ∈ (chunks.foldl (relayStep trans model) acc).frames,
        strIncludes f "[DONE]" = false) →
      (∀ c ∈ chunks, strIncludes c "[DONE]" = false) →
      (chunks.foldl (relayStep trans model) acc).hasSentDone = false := by
  intro chunks
  induction chunks with
  | nil => intro acc h0 _ _; simpa using h0
  | cons c cs ih =>
    intro acc h0 hf hc
    rw [List.foldl_cons] at hf ⊢
    have hmem : ∀ f ∈ (relayStep trans model acc c).frames,
        strIncludes f "[DONE]" = false := by
      obtain ⟨l, hl⟩ := relay_frames_decomp trans model cs (relayStep trans model acc c)
      intro f hfm
      apply hf
      rw [hl]
      exact List.mem_append_left l hfm
    have hstep : (relayStep trans model acc c).hasSentDone = false := by
      show ((acc.hasSentDone || _) || _) = false
      rw [h0]
      simp only [Bool.false_or, Bool.or_eq_false_iff]
      constructor
      · rw [List.any_eq_false]
        intro f hfm
        have : f ∈ (relayStep trans model acc c).frames := by
          show f ∈ acc.frames ++ _
          exact List.mem_append_right _ hfm
        simp [hmem f this]
      · simpa using hc c (List.mem_cons_self c cs)
    exact ih (relayStep trans model acc c) hstep hf
      (fun x hx => hc x (List.mem_cons_of_mem c hx))

/-- C1 (amended): whenever neither the frames the relay writes during
the read loop nor the raw upstream chunks mention the terminal marker,
the relay writes exactly one `[DONE]` frame and it is the last frame —
both when the upstream ends normally and when it fails mid-stream (in
which case a best-effort error frame immediately precedes it). -/
theorem c1_amended {σ : Type}
    (trans : σ → String → σ × List String × Option UsageTotals) (model : String)
    (s0 : σ) (chunks : List String) (failAfter : Bool)
    (h0 : strIncludes (initialFrame model) "[DONE]" = false)
    (h1 : ∀ f ∈ (relayLoop trans model s0 chunks).frames,
      strIncludes f "[DONE]" = false)
    (h2 : ∀ c ∈ chunks, strIncludes c "[DONE]" = false) :
    (streamToClientFrames trans model s0 chunks failAfter).filter
        (fun f => strIncludes f "[DONE]") = [doneFrame] ∧
    (streamToClientFrames trans model s0 chunks failAfter).getLast? =
      some doneFrame := by
  have hdone : (relayLoop trans model s0 chunks).hasSentDone = false :=
    relay_no_done trans model chunks ⟨s0, false, [], none, none⟩ rfl h1 h2
  have hfilter : (relayLoop trans model s0 chunks).frames.filter
      (fun f => strIncludes f "[DONE]") = [] :=
    List.filter_eq_nil_iff.mpr (by intro f hf; simp [h1 f hf])
  have herr : strIncludes streamFailedFrame "[DONE]" = false := by decide
  have hdn : strIncludes doneFrame "[DONE]" = true := by decide
  unfold streamToClientFrames
  cases failAfter with
  | true =>
    rw [if_pos rfl]
    constructor
    · simp [List.filter_append, List.filter_cons, h0, hfilter, herr, hdn]
    · show (initialFrame model ::
        ((relayLoop trans model s0 chunks).frames ++ [streamFailedFrame, doneFrame])).getLast?
        = some doneFrame
      rw [show initialFrame model ::
          ((relayLoop trans model s0 chunks).frames ++ [streamFailedFrame, doneFrame]) =
          (initialFrame model ::
            ((relayLoop trans model s0 chunks).frames ++ [streamFailedFrame])) ++ [doneFrame]
        from by simp]
      exact List.getLast?_concat _
  | false =>
    rw [if_neg (by simp)]
    rw [hdone]
    constructor
    · simp [List.filter_append, List.filter_cons, h0, hfilter, hdn]
    · show (initialFrame model ::
        ((relayLoop trans model s0 chunks).frames ++ [doneFrame])).getLast? = some doneFrame
      rw [show initialFrame model ::
          ((relayLoop trans model s0 chunks).frames ++ [doneFrame]) =
          (initialFrame model :: (relayLoop trans model s0 chunks).frames) ++ [doneFrame]
        from by simp]
      exact List.getLast?_concat _

/-- Counterexample to C1: a passthrough stream whose upstream sends the
terminal marker twice is relayed with two `[DONE]` frames — the relay
forwards terminal markers verbatim and only ever adds one, never
deduplicates. -/
theorem c1_counterexample :
    streamToClientFrames passthroughTrans "m" ()
        ["data: [DONE]\n\n", "data: [DONE]\n\n"] false =
      [initialFrame "m", "data: [DONE]\n\n", "data: [DONE]\n\n"] ∧
    ((streamToClientFrames passthroughTrans "m" ()
        ["data: [DONE]\n\n", "data: [DONE]\n\n"] false).filter
      (fun f => strIncludes f "[DONE]")).length = 2 := by
  exact ⟨rfl, rfl⟩

/-- Witness for C1 (amended): a single upstream chunk with no terminal
marker, failing mid-stream afterwards: the relay emits the error frame
and exactly one terminal `[DONE]`, last. -/
theorem c1_witness :
    (streamToClientFrames passthroughTrans "m" () ["data: \x7b\"a\":1\x7d\n\n"] true).filter
        (fun f => strIncludes f "[DONE]") = [doneFrame] ∧
    (streamToClientFrames passthroughTrans "m" () ["data: \x7b\"a\":1\x7d\n\n"] true).getLast? =
      some doneFrame := by
  exact c1_amended passthroughTrans "m" () ["data: \x7b\"a\":1\x7d\n\n"] true
    (by decide) (by decide) (by decide)

end Optyx

namespace Optyx

open Js

theorem gpt5_event_sawText_mono (now : Nat) (model : String)
    (acc : InnerState × List String × Option UsageTotals) (ev : String)
    (h : acc.1.sawText = true) :
    (gpt5ProcessEvent now model acc ev).1.sawText = true := by
  unfold gpt5ProcessEvent
  cases hc : classifyGpt5Event ev
  case skipEv => exact h
  case deltaEv parsed => rfl
  case incompleteEv parsed => exact h
  case completedEv => exact h

theorem gpt5_event_no_text (now : Nat) (model : String)
    (acc : InnerState × List String × Option UsageTotals) (ev : String)
    (h : (gpt5ProcessEvent now model acc ev).1.sawText = false) :
    acc.1.sawText = false ∧
    (gpt5ProcessEvent now model acc ev).2.1 = acc.2.1 := by
  unfold gpt5ProcessEvent at h ⊢
  cases hc : classifyGpt5Event ev
  case skipEv => rw [hc] at h; exact ⟨h, rfl⟩
  case deltaEv parsed => rw [hc] at h; exact Bool.noConfusion h
  case incompleteEv parsed => rw [hc] at h; exact ⟨h, rfl⟩
  case completedEv => rw [hc] at h; exact ⟨h, rfl⟩

theorem gpt5_fold_no_text (now : Nat) (model : String) :
    ∀ (events : List String) (acc : InnerState × List String × Option UsageTotals),
      (events.foldl (gpt5ProcessEvent now model) acc).1.sawText = false →
      acc.1.sawText = false ∧
      (events.foldl (gpt5ProcessEvent now model) acc).2.1 = acc.2.1 := by
  intro events
  induction events with
  | nil => intro acc h; exact ⟨h, rfl⟩
  | cons e es ih =>
    intro acc h
    rw [List.foldl_cons] at h ⊢
    obtain ⟨h1, h2⟩ := ih (gpt5ProcessEvent now model acc e) h
    obtain ⟨h3, h4⟩ := gpt5_event_no_text now model acc e h1
    exact ⟨h3, by rw [h2, h4]⟩

theorem gpt5_chunk_sawText (now : Nat) (model : String) (st : Gpt5State)
    (chunk : String) :
    (gpt5ChunkToSse now model st chunk).1.sawText =
      (gpt5Folded now model st chunk).1.sawText := rfl

theorem gpt5_chunk_no_text (now : Nat) (model : String) (st : Gpt5State)
    (chunk : String)
    (hsaw : (gpt5ChunkToSse now model st chunk).1.sawText = false) :
    st.sawText = false ∧
    (st.doneSent = false → st.finishReason = none →
      ((gpt5ChunkToSse now model st chunk).1.doneSent = false →
        (gpt5ChunkToSse now model st chunk).1.finishReason = none ∧
        ((gpt5ChunkToSse now model st chunk).2.1).filter (fun f => f ≠ "") = []) ∧
      ((gpt5ChunkToSse now model st chunk).1.doneSent = true →
        ((gpt5ChunkToSse now model st chunk).2.1).filter (fun f => f ≠ "") =
          [outputTruncatedFrame, doneFrame])) ∧
    (st.doneSent = true →
      (gpt5ChunkToSse now model st chunk).1.doneSent = true ∧
      ((gpt5ChunkToSse now model st chunk).2.1).filter (fun f => f ≠ "") = []) := by
  have hsawf : (gpt5Folded now model st chunk).1.sawText = false := hsaw
  obtain ⟨hs0, hfr⟩ := gpt5_fold_no_text now model (gpt5Events st chunk)
    (⟨st.roleSent, st.sawText, st.finishReason⟩, [], none) hsawf
  have hstsaw : st.sawText = false := hs0
  have hfr' : (gpt5Folded now model st chunk).2.1 = [] := hfr
  have herrne : outputTruncatedFrame ≠ "" := by decide
  have hdnne : doneFrame ≠ "" := by decide
  refine ⟨hstsaw, ?_, ?_⟩
  · intro hds hfrn
    have hfb : gpt5FinishBlock now model (gpt5Events st chunk)
        (gpt5Folded now model st chunk).1 st.doneSent
        (gpt5Folded now model st chunk).2.1 =
        (match (gpt5Folded now model st chunk).1.finishReason with
         | some _ =>
            ((gpt5Folded now model st chunk).2.1 ++ [outputTruncatedFrame, doneFrame],
              true)
         | none => ((gpt5Folded now model st chunk).2.1, false)) := by
      unfold gpt5FinishBlock
      rw [hds]
      cases hf : (gpt5Folded now model st chunk).1.finishReason with
      | none => rfl
      | some fr =>
        dsimp only
        rw [if_pos (by simp [hsawf])]
    cases hf : (gpt5Folded now model st chunk).1.finishReason with
    | none =>
      rw [hf] at hfb
      constructor
      · intro _
        constructor
        · show (gpt5Folded now model st chunk).1.finishReason = none
          exact hf
        · show (if (gpt5FinishBlock now model (gpt5Events st chunk)
              (gpt5Folded now model st chunk).1 st.doneSent
              (gpt5Folded now model st chunk).2.1).1 = []
            then [""]
            else (gpt5FinishBlock now model (gpt5Events st chunk)
              (gpt5Folded now model st chunk).1 st.doneSent
              (gpt5Folded now model st chunk).2.1).1).filter (fun f => f ≠ "") = []
          rw [hfb]
          dsimp only
          rw [hfr']
          simp
      · intro hdt
        exfalso
        have : (gpt5ChunkToSse now model st chunk).1.doneSent =
            (gpt5FinishBlock now model (gpt5Events st chunk)
              (gpt5Folded now model st chunk).1 st.doneSent
              (gpt5Folded now model st chunk).2.1).2 := rfl
        rw [this, hfb] at hdt
        simp at hdt
    | some fr =>
      rw [hf] at hfb
      constructor
      · intro hdf
        exfalso
        have : (gpt5ChunkToSse now model st chunk).1.doneSent =
            (gpt5FinishBlock now model (gpt5Events st chunk)
              (gpt5Folded now model st chunk).1 st.doneSent
              (gpt5Folded now model st chunk).2.1).2 := rfl
        rw [this, hfb] at hdf
        simp at hdf
      · intro _
        show (if (gpt5FinishBlock now model (gpt5Events st chunk)
            (gpt5Folded now model st chunk).1 st.doneSent
            (gpt5Folded now model st chunk).2.1).1 = []
          then [""]
          else (gpt5FinishBlock now model (gpt5Events st chunk)
            (gpt5Folded now model st chunk).1 st.doneSent
            (gpt5Folded now model st chunk).2.1).1).filter (fun f => f ≠ "") =
          [outputTruncatedFrame, doneFrame]
        rw [hfb]
        dsimp only
        rw [hfr']
        simp only [List.nil_append]
        rw [if_neg (by simp)]
        simp [List.filter_cons, herrne, hdnne]
  · intro hds
    have hfb : gpt5FinishBlock now model (gpt5Events st chunk)
        (gpt5Folded now model st chunk).1 st.doneSent
        (gpt5Folded now model st chunk).2.1 =
        ((gpt5Folded now model st chunk).2.1, true) := by
      unfold gpt5FinishBlock
      rw [hds]
      cases hf : (gpt5Folded now model st chunk).1.finishReason <;> rfl
    constructor
    · show (gpt5FinishBlock now model (gpt5Events st chunk)
          (gpt5Folded now model st chunk).1 st.doneSent
          (gpt5Folded now model st chunk).2.1).2 = true
      rw [hfb]
    · show (if (gpt5FinishBlock now model (gpt5Events st chunk)
          (gpt5Folded now model st chunk).1 st.doneSent
          (gpt5Folded now model st chunk).2.1).1 = []
        then [""]
        else (gpt5FinishBlock now model (gpt5Events st chunk)
          (gpt5Folded now model st chunk).1 st.doneSent
          (gpt5Folded now model st chunk).2.1).1).filter (fun f => f ≠ "") = []
      rw [hfb]
      dsimp only
      rw [hfr']
      simp

end Optyx

namespace Optyx

open Js

theorem gpt5_fold_sawText_mono (now : Nat) (model : String) :
    ∀ (events : List String) (acc : InnerState × List String × Option UsageTotals),
      acc.1.sawText = true →
      (events.foldl (gpt5ProcessEvent now model) acc).1.sawText = true := by
  intro events
  induction events with
  | nil => intro acc h; exact h
  | cons e es ih =>
    intro acc h
    rw [List.foldl_cons]
    exact ih _ (gpt5_event_sawText_mono now model acc e h)

theorem gpt5_chunk_sawText_mono (now : Nat) (model : String) (st : Gpt5State)
    (chunk : String) (h : st.sawText = true) :
    (gpt5ChunkToSse now model st chunk).1.sawText = true := by
  show (gpt5Folded now model st chunk).1.sawText = true
  exact gpt5_fold_sawText_mono now model (gpt5Events st chunk)
    (⟨st.roleSent, st.sawText, st.finishReason⟩, [], none) h

theorem gpt5_run_frames_decomp (now : Nat) (model : String) :
    ∀ (chunks : List String) (st : Gpt5State) (fs : List String),
      chunks.foldl
        (fun (acc : Gpt5State × List String) chunk =>
          let step := gpt5ChunkToSse now model acc.1 chunk
          (step.1, acc.2 ++ step.2.1)) (st, fs) =
      ((gpt5RunFrom now model st chunks).1, fs ++ (gpt5RunFrom now model st chunks).2) := by
  intro chunks
  induction chunks with
  | nil => intro st fs; simp [gpt5RunFrom]
  | cons c cs ih =>
    intro st fs
    have hl : (c :: cs).foldl
        (fun (acc : Gpt5State × List String) chunk =>
          let step := gpt5ChunkToSse now model acc.1 chunk
          (step.1, acc.2 ++ step.2.1)) (st, fs) =
        cs.foldl
          (fun (acc : Gpt5State × List String) chunk =>
            let step := gpt5ChunkToSse now model acc.1 chunk
            (step.1, acc.2 ++ step.2.1))
          ((gpt5ChunkToSse now model st c).1,
            fs ++ (gpt5ChunkToSse now model st c).2.1) := rfl
    have hr2 : gpt5RunFrom now model st (c :: cs) =
        cs.foldl
          (fun (acc : Gpt5State × List String) chunk =>
            let step := gpt5ChunkToSse now model acc.1 chunk
            (step.1, acc.2 ++ step.2.1))
          ((gpt5ChunkToSse now model st c).1,
            [] ++ (gpt5ChunkToSse now model st c).2.1) := rfl
    rw [hl, ih, hr2, List.nil_append,
      ih ((gpt5ChunkToSse now model st c).1) ((gpt5ChunkToSse now model st c).2.1)]
    simp [List.append_assoc]

theorem gpt5RunFrom_cons (now : Nat) (model : String) (st : Gpt5State)
    (c : String) (cs : List String) :
    gpt5RunFrom now model st (c :: cs) =
      ((gpt5RunFrom now model (gpt5ChunkToSse now model st c).1 cs).1,
        (gpt5ChunkToSse now model st c).2.1 ++
          (gpt5RunFrom now model (gpt5ChunkToSse now model st c).1 cs).2) := by
  unfold gpt5RunFrom
  rw [List.foldl_cons]
  show List.foldl _ ((gpt5ChunkToSse now model st c).1,
      [] ++ (gpt5ChunkToSse now model st c).2.1) cs = _
  rw [List.nil_append]
  exact gpt5_run_frames_decomp now model cs (gpt5ChunkToSse now model st c).1
    (gpt5ChunkToSse now model st c).2.1

theorem gpt5_run_sawText_mono (now : Nat) (model : String) :
    ∀ (chunks : List String) (st : Gpt5State), st.sawText = true →
      (gpt5RunFrom now model st chunks).1.sawText = true := by
  intro chunks
  induction chunks with
  | nil => intro st h; exact h
  | cons c cs ih =>
    intro st h
    rw [gpt5RunFrom_cons]
    exact ih _ (gpt5_chunk_sawText_mono now model st c h)

theorem gpt5_run_no_text (now : Nat) (model : String) :
    ∀ (chunks : List String) (st : Gpt5State),
      (st.doneSent = false → st.finishReason = none) →
      (gpt5RunFrom now model st chunks).1.sawText = false →
      ((gpt5RunFrom now model st chunks).1.doneSent = false →
        (gpt5RunFrom now model st chunks).1.finishReason = none) ∧
      (st.doneSent = false →
        ((gpt5RunFrom now model st chunks).1.doneSent = false →
          ((gpt5RunFrom now model st chunks).2).filter (fun f => f ≠ "") = []) ∧
        ((gpt5RunFrom now model st chunks).1.doneSent = true →
          ((gpt5RunFrom now model st chunks).2).filter (fun f => f ≠ "") =
            [outputTruncatedFrame, doneFrame])) ∧
      (st.doneSent = true →
        (gpt5RunFrom now model st chunks).1.doneSent = true ∧
        ((gpt5RunFrom now model st chunks).2).filter (fun f => f ≠ "") = []) := by
  intro chunks
  induction chunks with
  | nil =>
    intro st hinv hsaw
    refine ⟨hinv, ?_, ?_⟩
    · intro hds
      refine ⟨fun _ => rfl, fun hdt => ?_⟩
      have hdt' : st.doneSent = true := hdt
      rw [hds] at hdt'
      exact Bool.noConfusion hdt'
    · intro hdt
      exact ⟨hdt, rfl⟩
  | cons c cs ih =>
    intro st hinv hsaw
    rw [gpt5RunFrom_cons] at hsaw ⊢
    set s := gpt5ChunkToSse now model st c with hs
    have hssaw : s.1.sawText = false := by
      cases hx : s.1.sawText with
      | false => rfl
      | true => rw [gpt5_run_sawText_mono now model cs s.1 hx] at hsaw; exact hsaw
    obtain ⟨hstsaw, hblock, hdone⟩ := gpt5_chunk_no_text now model st c hssaw
    have hinv' : s.1.doneSent = false → s.1.finishReason = none := by
      intro hsf
      cases hd : st.doneSent with
      | false => exact ((hblock hd (hinv hd)).1 hsf).1
      | true =>
        have h1 := (hdone hd).1
        rw [hs] at hsf
        rw [hsf] at h1
        exact Bool.noConfusion h1
    obtain ⟨ih1, ih2, ih3⟩ := ih s.1 hinv' hsaw
    refine ⟨ih1, ?_, ?_⟩
    · intro hds
      have hfr0 : st.finishReason = none := hinv hds
      cases hsd : s.1.doneSent with
      | false =>
        have hsfil : (s.2.1).filter (fun f => f ≠ "") = [] :=
          ((hblock hds hfr0).1 hsd).2
        obtain ⟨ihA, ihB⟩ := ih2 hsd
        constructor
        · intro hrd
          rw [List.filter_append, hsfil, ihA hrd, List.nil_append]
        · intro hrd
          rw [List.filter_append, hsfil, ihB hrd, List.nil_append]
      | true =>
        have hsfil : (s.2.1).filter (fun f => f ≠ "") =
            [outputTruncatedFrame, doneFrame] := (hblock hds hfr0).2 hsd
        obtain ⟨ihD, ihF⟩ := ih3 hsd
        constructor
        · intro hrd
          rw [ihD] at hrd
          exact absurd hrd (by simp)
        · intro _
          rw [List.filter_append, hsfil, ihF, List.append_nil]
    · intro hdt
      obtain ⟨hsd, hsfil⟩ := hdone hdt
      obtain ⟨ihD, ihF⟩ := ih3 hsd
      exact ⟨ihD, by rw [List.filter_append, hsfil, ihF, List.append_nil]⟩

end Optyx

namespace Optyx

open Js

/-- C2 (amended): on any streaming "responses" run in which a finish
condition is observed but no text delta is ever observed at any point,
the translator's emitted frames (ignoring the empty keep-alive strings)
are exactly one canonical `OUTPUT_TRUNCATED` error frame followed by
exactly one terminal `[DONE]` frame — no content frame at all. -/
theorem c2_amended (now : Nat) (model : String) (chunks : List String)
    (hsaw : (gpt5Run now model chunks).1.sawText = false)
    (hfin : (gpt5Run now model chunks).1.finishReason ≠ none) :
    ((gpt5Run now model chunks).2).filter (fun f => f ≠ "") =
      [outputTruncatedFrame, doneFrame] := by
  unfold gpt5Run at hsaw hfin ⊢
  obtain ⟨h1, h2, _⟩ := gpt5_run_no_text now model chunks gpt5Init
    (fun _ => rfl) hsaw
  cases hdt : (gpt5RunFrom now model gpt5Init chunks).1.doneSent with
  | false => exact absurd (h1 hdt) hfin
  | true => exact (h2 rfl).2 hdt

/-- Witness for C2 (amended): a stream consisting of a single
`response.completed` event and no text deltas yields exactly the
`OUTPUT_TRUNCATED` frame followed by `[DONE]`. -/
theorem c2_witness :
    ((gpt5Run 1700000000000 "gpt-5-nano-2025-08-07"
        ["event: response.completed\ndata: \x7b\"type\":\"response.completed\",\"id\":\"r1\"\x7d\n\n"]).2).filter
      (fun f => f ≠ "") = [outputTruncatedFrame, doneFrame] := by
  exact c2_amended 1700000000000 "gpt-5-nano-2025-08-07"
    ["event: response.completed\ndata: \x7b\"type\":\"response.completed\",\"id\":\"r1\"\x7d\n\n"]
    (by rfl) (by decide)

set_option maxRecDepth 8192 in
/-- Counterexample to C2 as frozen: when the finish condition precedes a
(late) text delta, "no text delta was ever observed before it" holds,
yet the translator emits the role and content frames after the `[DONE]`
frame — the sequence is not "one error frame followed by exactly one
`[DONE]`", because `[DONE]` is not last. -/
theorem c2_counterexample :
    ((gpt5Run 1700000000000 "m"
        ["event: response.completed\ndata: \x7b\"type\":\"response.completed\",\"id\":\"r1\"\x7d\n\n",
         "event: response.output_text.delta\ndata: \x7b\"type\":\"response.output_text.delta\",\"delta\":\"Hi\",\"id\":\"r1\",\"created\":5\x7d\n\n"]).2).filter
      (fun f => f ≠ "") =
      [outputTruncatedFrame, doneFrame,
        "data: " ++ (Json.obj
          [ ("id", .str "r1"),
            ("object", .str "chat.completion.chunk"),
            ("created", .num "5"),
            ("model", .str "m"),
            ("choices", .arr
              [.obj [("index", .num "0"),
                     ("delta", .obj [("role", .str "assistant")]),
                     ("finish_reason", .null)]]) ]).stringify ++ "\n\n",
        "data: " ++ (Json.obj
          [ ("id", .str "r1"),
            ("object", .str "chat.completion.chunk"),
            ("created", .num "5"),
            ("model", .str "m"),
            ("choices", .arr
              [.obj [("index", .num "0"),
                     ("delta", .obj [("role", .str "assistant"),
                                     ("content", .str "Hi")]),
                     ("finish_reason", .null)]]) ]).stringify ++ "\n\n"] ∧
    (((gpt5Run 1700000000000 "m"
        ["event: response.completed\ndata: \x7b\"type\":\"response.completed\",\"id\":\"r1\"\x7d\n\n",
         "event: response.output_text.delta\ndata: \x7b\"type\":\"response.output_text.delta\",\"delta\":\"Hi\",\"id\":\"r1\",\"created\":5\x7d\n\n"]).2).filter
      (fun f => f ≠ "")).getLast? ≠ some doneFrame := by
  refine ⟨rfl, ?_⟩
  decide

end Optyx
